import Mathlib

/-!
# Cache-consistency layer of the users/products backend

A shallow embedding of the repository's cache layer and the two
cache-backed entity services:

* `app/cache/user_cache.py` and `app/cache/product_cache.py` (Redis helpers),
* `UserService` (`main_app/app/services/user_service.py`),
* `ProductService` (`lab2/app/services/product_service.py`),
* `UserRepository.update/delete`, `ProductRepository.update/delete`
  (`lab2/app/repositories/*.py`) together with the ORM column defaults of
  `app/models.py` (`updated_at` has `onupdate=datetime.now`).

Conventions of the embedding:

* Python datetimes are ticks (`Nat`); `datetime.isoformat` renders the tick
  in decimal and `datetime.fromisoformat` parses it back, failing on
  non-numeric text (`ValueError`), which is all the claims use of the format.
* JSON-decoded Python values are `JVal`; a structured (non-JSON) datetime
  object is `JVal.dt`, which `json.dumps` rejects with `TypeError`.
* Raised Python exceptions are `PyErr` values carried in `Except`;
  constructors record the raise site, and predicates mirror the Python
  class hierarchy used by the `except` clauses in the source
  (`redis.TimeoutError` is a `redis.RedisError` but *not* a
  `redis.ConnectionError`; `json.JSONDecodeError` is a `ValueError`).
* The Redis client is a key-value store plus a connectivity mode:
  `up` (commands succeed), `down` (commands raise `redis.ConnectionError`),
  `timeouts` (commands raise `redis.TimeoutError`).  Product float fields
  are carried as exact rationals; no claim exercises float rounding.
-/

namespace CacheLayer

/-- A Python `datetime` instant, abstracted to a tick counter. -/
abbrev DT := Nat

/-- The character for a decimal digit (used by the ISO rendering). -/
def digitChar : Nat → Char
  | 0 => '0' | 1 => '1' | 2 => '2' | 3 => '3' | 4 => '4'
  | 5 => '5' | 6 => '6' | 7 => '7' | 8 => '8' | _ => '9'

/-- Numeric value of a decimal digit character. -/
def charToDigit (c : Char) : Nat := c.toNat - 48

/-- `datetime.isoformat`: decimal rendering of the tick. -/
def isoformat (d : DT) : String :=
  if d = 0 then "0" else String.mk (((Nat.digits 10 d).reverse).map digitChar)

/-- `datetime.fromisoformat`: parses the decimal rendering, `none` models the
`ValueError` raised on malformed text. -/
def fromisoformat (s : String) : Option DT :=
  if s.data ≠ [] ∧ s.data.all Char.isDigit then
    some (Nat.ofDigits 10 ((s.data.map charToDigit).reverse))
  else none

theorem digitChar_isDigit {k : Nat} (h : k < 10) : (digitChar k).isDigit := by
  interval_cases k <;> decide

theorem charToDigit_digitChar {k : Nat} (h : k < 10) : charToDigit (digitChar k) = k := by
  interval_cases k <;> decide

theorem map_charToDigit_digitChar {l : List Nat} (h : ∀ x ∈ l, x < 10) :
    (l.map digitChar).map charToDigit = l := by
  induction l with
  | nil => rfl
  | cons a t ih =>
    simp only [List.map_cons, List.cons.injEq]
    exact ⟨charToDigit_digitChar (h a (List.mem_cons_self a t)),
      ih fun x hx => h x (List.mem_cons_of_mem a hx)⟩

/-- Decoding inverts encoding: the timestamp representation round-trips. -/
theorem fromisoformat_isoformat (d : DT) : fromisoformat (isoformat d) = some d := by
  by_cases h0 : d = 0
  · subst h0; decide
  · have hne : Nat.digits 10 d ≠ [] := Nat.digits_ne_nil_iff_ne_zero.mpr h0
    have hlt : ∀ x ∈ Nat.digits 10 d, x < 10 :=
      fun x hx => Nat.digits_lt_base (by norm_num) hx
    unfold isoformat fromisoformat
    rw [if_neg h0]
    have hdata : (String.mk (((Nat.digits 10 d).reverse).map digitChar)).data
        = ((Nat.digits 10 d).reverse).map digitChar := rfl
    rw [hdata]
    have hnonnil : ((Nat.digits 10 d).reverse).map digitChar ≠ [] := by
      simp [hne]
    have hall : (((Nat.digits 10 d).reverse).map digitChar).all Char.isDigit := by
      rw [List.all_eq_true]
      intro c hc
      rw [List.mem_map] at hc
      obtain ⟨k, hk, rfl⟩ := hc
      exact digitChar_isDigit (hlt k (List.mem_reverse.mp hk))
    rw [if_pos ⟨hnonnil, hall⟩]
    rw [map_charToDigit_digitChar (fun x hx => hlt x (List.mem_reverse.mp hx))]
    rw [List.reverse_reverse, Nat.ofDigits_digits]

/-- A Python value as it appears after `json.loads`, extended with the
structured-datetime case that only pre-`json.dumps` dicts can contain. -/
inductive JVal where
  | null
  | str (s : String)
  | int (n : Int)
  | num (q : Rat)
  | dt (d : DT)
  | obj (fields : List (String × JVal))

/-- Python truthiness of a `JVal`. -/
def JVal.truthy : JVal → Bool
  | .null => false
  | .str s => s ≠ ""
  | .int n => n ≠ 0
  | .num q => q ≠ 0
  | .dt _ => true
  | .obj fs => !fs.isEmpty

/-- First binding of a key in a JSON object's field list. -/
def lookupField (fs : List (String × JVal)) (k : String) : Option JVal :=
  match fs with
  | [] => none
  | (k', v) :: rest => if k' = k then some v else lookupField rest k

/-- `json.dumps` accepts a value iff it contains no structured datetime. -/
def JVal.encodable : JVal → Bool
  | .null => true
  | .str _ => true
  | .int _ => true
  | .num _ => true
  | .dt _ => false
  | .obj fs => encodableFields fs
where
  encodableFields : List (String × JVal) → Bool
  | [] => true
  | (_, v) :: rest => v.encodable && encodableFields rest

/-- A raised Python exception; constructors record the raise site. -/
inductive PyErr where
  /-- `ValueError(f"... with ID {id} not found")` from a service/repository. -/
  | notFound (entity : String) (id : Int)
  /-- `ValueError(f"... already exists")` from a uniqueness check. -/
  | alreadyExists (field : String)
  /-- `ValueError` from product price/stock validation. -/
  | invalidField (field : String)
  /-- `ValueError` from `datetime.fromisoformat` on malformed text. -/
  | badIso
  /-- `json.JSONDecodeError` (a `ValueError` subclass) from `json.loads`. -/
  | jsonDecode
  /-- `TypeError` (bad subscript target, or unencodable value in `json.dumps`). -/
  | typeErr
  /-- `KeyError(k)` from indexing a dict without the key. -/
  | keyErr (k : String)
  /-- `AttributeError` from calling `.get` on a non-dict. -/
  | attrErr
  /-- `redis.ConnectionError`. -/
  | connErr
  /-- `redis.TimeoutError`. -/
  | timeoutErr
deriving DecidableEq, Repr

/-- Membership in Python's `ValueError` class. -/
def PyErr.isValueError : PyErr → Bool
  | .notFound _ _ | .alreadyExists _ | .invalidField _ | .badIso | .jsonDecode => true
  | _ => false

/-- Membership in Python's `TypeError` class. -/
def PyErr.isTypeError : PyErr → Bool
  | .typeErr => true
  | _ => false

/-- Membership in `redis.RedisError` (both connection and timeout errors). -/
def PyErr.isRedisError : PyErr → Bool
  | .connErr | .timeoutErr => true
  | _ => false

/-- Membership in `redis.ConnectionError` (timeouts are *not* in it). -/
def PyErr.isConnectionError : PyErr → Bool
  | .connErr => true
  | _ => false

/-- Membership in `json.JSONDecodeError`. -/
def PyErr.isJSONDecodeError : PyErr → Bool
  | .jsonDecode => true
  | _ => false

/-- What `except (ValueError, TypeError, redis.RedisError)` catches. -/
def PyErr.caughtByVTR (e : PyErr) : Bool :=
  e.isValueError || e.isTypeError || e.isRedisError

/-- A cache value as stored in Redis: either bytes that `json.loads` would
decode to `v`, or bytes it rejects. -/
inductive Stored where
  | json (v : JVal)
  | corrupt

/-- `json.dumps`: serializes an encodable value, raises `TypeError` otherwise. -/
def jsonDumps (v : JVal) : Except PyErr Stored :=
  if v.encodable then .ok (.json v) else .error .typeErr

/-- `json.loads` on stored cache bytes. -/
def jsonLoads : Stored → Except PyErr JVal
  | .json v => .ok v
  | .corrupt => .error .jsonDecode

/-- Connectivity of the Redis client, as seen by one command. -/
inductive RedisMode where
  | up
  | down
  | timeouts
deriving DecidableEq, Repr

/-- The Redis server key space plus the client's connectivity. -/
structure RedisState where
  mode : RedisMode
  store : List (String × Stored × Nat)

/-- Value and remaining TTL at a key. -/
def storeGet (l : List (String × Stored × Nat)) (k : String) : Option (Stored × Nat) :=
  (l.find? (fun e => e.1 = k)).map Prod.snd

/-- Atomic `SETEX`: bind `k` to `(v, ttl)`, replacing any previous binding. -/
def storeSet (l : List (String × Stored × Nat)) (k : String) (v : Stored) (ttl : Nat) :
    List (String × Stored × Nat) :=
  (k, v, ttl) :: l.filter (fun e => e.1 ≠ k)

/-- `DEL`: remove `k`, reporting how many keys were removed. -/
def storeDel (l : List (String × Stored × Nat)) (k : String) :
    List (String × Stored × Nat) × Nat :=
  (l.filter (fun e => e.1 ≠ k), if l.any (fun e => e.1 = k) then 1 else 0)

/-- `redis_client.get(key)`. -/
def redisGet (r : RedisState) (k : String) : Except PyErr (Option Stored) :=
  match r.mode with
  | .down => .error .connErr
  | .timeouts => .error .timeoutErr
  | .up => .ok ((storeGet r.store k).map Prod.fst)

/-- `redis_client.setex(key, ttl, value)`. -/
def redisSetex (r : RedisState) (k : String) (ttl : Nat) (v : Stored) :
    Except PyErr RedisState :=
  match r.mode with
  | .down => .error .connErr
  | .timeouts => .error .timeoutErr
  | .up => .ok { r with store := storeSet r.store k v ttl }

/-- `redis_client.delete(key)`. -/
def redisDelete (r : RedisState) (k : String) : Except PyErr (RedisState × Nat) :=
  match r.mode with
  | .down => .error .connErr
  | .timeouts => .error .timeoutErr
  | .up =>
    let p := storeDel r.store k
    .ok ({ r with store := p.1 }, p.2)

/-! ## Cache module (`app/cache/user_cache.py`, `app/cache/product_cache.py`)

The two Python modules are textually identical up to the key prefix, the
TTL default and log wording; they are embedded through shared raw
operations instantiated per entity.  Each function returns the Redis state
it leaves behind together with its Python outcome. -/

/-- The cache key `f"user:{user_id}"`. -/
def cacheKeyUser (uid : Int) : String := "user:" ++ toString uid

/-- The cache key `f"product:{product_id}"`. -/
def cacheKeyProduct (pid : Int) : String := "product:" ++ toString pid

/-- Body of `get_user_from_cache` / `get_product_from_cache`: `GET`, then
`json.loads`; `except redis.ConnectionError: return None`; on
`json.JSONDecodeError` delete the corrupt key (itself guarded by
`except redis.ConnectionError: pass`) and return `None`.  The `none`
outcome is what the consuming service's `is not None` check treats as a
miss; stored bytes `"null"` make `json.loads` return Python `None`, so
they land in that same `none` outcome. -/
def cacheGetRaw (r : RedisState) (key : String) : RedisState × Except PyErr (Option JVal) :=
  match redisGet r key with
  | .error e => if e.isConnectionError then (r, .ok none) else (r, .error e)
  | .ok none => (r, .ok none)
  | .ok (some raw) =>
    match jsonLoads raw with
    | .ok .null => (r, .ok none)
    | .ok v => (r, .ok (some v))
    | .error e =>
      if e.isJSONDecodeError then
        match redisDelete r key with
        | .ok (r2, _) => (r2, .ok none)
        | .error e2 => if e2.isConnectionError then (r, .ok none) else (r, .error e2)
      else (r, .error e)

/-- Body of `set_user_to_cache` / `set_product_to_cache` /
`update_product_in_cache`: `json.dumps` then `SETEX`, with
`except redis.ConnectionError: pass` and `except (TypeError, ValueError): pass`. -/
def cacheSetRaw (r : RedisState) (key : String) (ttl : Nat) (data : JVal) :
    RedisState × Except PyErr Unit :=
  match jsonDumps data with
  | .error e =>
    if e.isConnectionError then (r, .ok ())
    else if e.isTypeError || e.isValueError then (r, .ok ())
    else (r, .error e)
  | .ok payload =>
    match redisSetex r key ttl payload with
    | .ok r2 => (r2, .ok ())
    | .error e =>
      if e.isConnectionError then (r, .ok ())
      else if e.isTypeError || e.isValueError then (r, .ok ())
      else (r, .error e)

/-- Body of `delete_user_from_cache` / `delete_product_from_cache`: `DEL`
with `except redis.ConnectionError: pass`. -/
def cacheDelRaw (r : RedisState) (key : String) : RedisState × Except PyErr Unit :=
  match redisDelete r key with
  | .ok (r2, _) => (r2, .ok ())
  | .error e => if e.isConnectionError then (r, .ok ()) else (r, .error e)

/-- `get_user_from_cache(redis_client, user_id)`. -/
def get_user_from_cache (r : RedisState) (uid : Int) : RedisState × Except PyErr (Option JVal) :=
  cacheGetRaw r (cacheKeyUser uid)

/-- `set_user_to_cache(redis_client, user_id, user_data)`; the source's
`ttl` parameter defaults to `3600` and no caller overrides it. -/
def set_user_to_cache (r : RedisState) (uid : Int) (data : JVal) :
    RedisState × Except PyErr Unit :=
  cacheSetRaw r (cacheKeyUser uid) 3600 data

/-- `delete_user_from_cache(redis_client, user_id)`. -/
def delete_user_from_cache (r : RedisState) (uid : Int) : RedisState × Except PyErr Unit :=
  cacheDelRaw r (cacheKeyUser uid)

/-- `get_product_from_cache(redis_client, product_id)`. -/
def get_product_from_cache (r : RedisState) (pid : Int) :
    RedisState × Except PyErr (Option JVal) :=
  cacheGetRaw r (cacheKeyProduct pid)

/-- `set_product_to_cache(redis_client, product_id, product_data)`; the
`ttl` parameter defaults to `600` and no caller overrides it. -/
def set_product_to_cache (r : RedisState) (pid : Int) (data : JVal) :
    RedisState × Except PyErr Unit :=
  cacheSetRaw r (cacheKeyProduct pid) 600 data

/-- `update_product_in_cache(redis_client, product_id, product_data)`; same
body as `set_product_to_cache`, `ttl` defaulting to `600`. -/
def update_product_in_cache (r : RedisState) (pid : Int) (data : JVal) :
    RedisState × Except PyErr Unit :=
  cacheSetRaw r (cacheKeyProduct pid) 600 data

/-- `delete_product_from_cache(redis_client, product_id)`. -/
def delete_product_from_cache (r : RedisState) (pid : Int) : RedisState × Except PyErr Unit :=
  cacheDelRaw r (cacheKeyProduct pid)

/-! ## Entity records and their cache serialization -/

/-- A persisted `User` row (`app/models.py`). -/
structure UserRec where
  id : Int
  username : String
  email : String
  description : Option String
  created_at : DT
  updated_at : Option DT
deriving DecidableEq, Repr

/-- A persisted `Product` row (`app/models.py`); the float `price` is
carried as an exact rational. -/
structure ProductRec where
  id : Int
  name : String
  description : Option String
  price : Rat
  stock_quantity : Int
  created_at : DT
  updated_at : Option DT
deriving DecidableEq, Repr

/-- The attribute values of a `User` ORM object as the service returns it;
an object rebuilt from the cache carries whatever values the cached dict
held, so the fields are loosely typed. -/
structure UserObj where
  id : JVal
  username : JVal
  email : JVal
  description : JVal
  created_at : JVal
  updated_at : JVal

/-- Attribute values of a `Product` ORM object as the service returns it. -/
structure ProductObj where
  id : JVal
  name : JVal
  description : JVal
  price : JVal
  stock_quantity : JVal
  created_at : JVal
  updated_at : JVal

/-- Attribute view of a persisted user row. -/
def UserRec.toObj (u : UserRec) : UserObj where
  id := .int u.id
  username := .str u.username
  email := .str u.email
  description := u.description.elim .null .str
  created_at := .dt u.created_at
  updated_at := u.updated_at.elim .null .dt

/-- Attribute view of a persisted product row. -/
def ProductRec.toObj (p : ProductRec) : ProductObj where
  id := .int p.id
  name := .str p.name
  description := p.description.elim .null .str
  price := .num p.price
  stock_quantity := .int p.stock_quantity
  created_at := .dt p.created_at
  updated_at := p.updated_at.elim .null .dt

/-- `UserResponse.model_validate(user).model_dump()` followed by the
service's `isoformat` conversion of the two timestamp entries. -/
def serializeUser (u : UserRec) : JVal :=
  .obj [("id", .int u.id),
        ("username", .str u.username),
        ("email", .str u.email),
        ("description", u.description.elim .null .str),
        ("created_at", .str (isoformat u.created_at)),
        ("updated_at", u.updated_at.elim .null (fun d => .str (isoformat d)))]

/-- `ProductResponse.model_validate(product).model_dump()` followed by the
service's `isoformat` conversion of the two timestamp entries. -/
def serializeProduct (p : ProductRec) : JVal :=
  .obj [("id", .int p.id),
        ("name", .str p.name),
        ("description", p.description.elim .null .str),
        ("price", .num p.price),
        ("stock_quantity", .int p.stock_quantity),
        ("created_at", .str (isoformat p.created_at)),
        ("updated_at", p.updated_at.elim .null (fun d => .str (isoformat d)))]

/-- Python `value[k]`: `KeyError` on a dict without the key, `TypeError`
when the target is not subscriptable by a string. -/
def pyIndex (v : JVal) (k : String) : Except PyErr JVal :=
  match v with
  | .obj fs =>
    match lookupField fs k with
    | some x => .ok x
    | none => .error (.keyErr k)
  | _ => .error .typeErr

/-- Python `value.get(k)`: `None` default on a dict, `AttributeError` on
anything without a `.get` method. -/
def pyGetMethod (v : JVal) (k : String) : Except PyErr JVal :=
  match v with
  | .obj fs => .ok ((lookupField fs k).getD .null)
  | _ => .error .attrErr

/-- `datetime.fromisoformat(x) if isinstance(x, str) else x`
(the `created_at` branch of the cache-hit path). -/
def parseTimeField (v : JVal) : Except PyErr JVal :=
  match v with
  | .str s =>
    match fromisoformat s with
    | some d => .ok (.dt d)
    | none => .error .badIso
  | v => .ok v

/-- `datetime.fromisoformat(x) if x and isinstance(x, str) else x`
(the `updated_at` branch of the cache-hit path). -/
def parseOptTimeField (v : JVal) : Except PyErr JVal :=
  if v.truthy then
    match v with
    | .str s =>
      match fromisoformat s with
      | some d => .ok (.dt d)
      | none => .error .badIso
    | v => .ok v
  else .ok v

/-- The cache-hit branch of `UserService.get_by_id`: rebuild a `User`
object from the cached dict.  Any exception escapes — there is no
service-level handler around this code. -/
def decodeUserHit (cached : JVal) : Except PyErr UserObj :=
  match pyIndex cached "created_at" with
  | .error e => .error e
  | .ok caRaw =>
    match parseTimeField caRaw with
    | .error e => .error e
    | .ok created_at =>
      match pyGetMethod cached "updated_at" with
      | .error e => .error e
      | .ok uaRaw =>
        match parseOptTimeField uaRaw with
        | .error e => .error e
        | .ok updated_at =>
          match pyIndex cached "id" with
          | .error e => .error e
          | .ok idv =>
            match pyIndex cached "username" with
            | .error e => .error e
            | .ok un =>
              match pyIndex cached "email" with
              | .error e => .error e
              | .ok em =>
                match pyGetMethod cached "description" with
                | .error e => .error e
                | .ok desc => .ok ⟨idv, un, em, desc, created_at, updated_at⟩

/-- The cache-hit branch of `ProductService.get_by_id`. -/
def decodeProductHit (cached : JVal) : Except PyErr ProductObj :=
  match pyIndex cached "created_at" with
  | .error e => .error e
  | .ok caRaw =>
    match parseTimeField caRaw with
    | .error e => .error e
    | .ok created_at =>
      match pyGetMethod cached "updated_at" with
      | .error e => .error e
      | .ok uaRaw =>
        match parseOptTimeField uaRaw with
        | .error e => .error e
        | .ok updated_at =>
          match pyIndex cached "id" with
          | .error e => .error e
          | .ok idv =>
            match pyIndex cached "name" with
            | .error e => .error e
            | .ok nm =>
              match pyGetMethod cached "description" with
              | .error e => .error e
              | .ok desc =>
                match pyIndex cached "price" with
                | .error e => .error e
                | .ok pr =>
                  match pyIndex cached "stock_quantity" with
                  | .error e => .error e
                  | .ok sq => .ok ⟨idv, nm, desc, pr, sq, created_at, updated_at⟩

/-! ## Update payloads (pydantic `UserUpdate` / `ProductUpdate`)

A patch field has three states: not supplied in the request, supplied as
`null`, or supplied with a value — `Option (Option α)`.
`model_dump(exclude_unset=True)` keeps only supplied fields and the
repository then drops the `None`-valued ones, so a field is applied iff it
is `some (some v)`.  Plain attribute access (`user_data.email`) sees the
pydantic default `None` for an unsupplied field, i.e. the join. -/

/-- Pydantic `UserUpdate`: all fields optional. -/
structure UserUpdate where
  username : Option (Option String)
  email : Option (Option String)
  description : Option (Option String)

/-- Pydantic `ProductUpdate`: all fields optional. -/
structure ProductUpdate where
  name : Option (Option String)
  description : Option (Option String)
  price : Option (Option Rat)
  stock_quantity : Option (Option Int)

/-- The value a patch field contributes to
`{k: v for k, v in data.model_dump(exclude_unset=True).items() if v is not None}`:
present iff the field was supplied and non-`None`. -/
def effField {α : Type} (f : Option (Option α)) : Option α :=
  match f with
  | some (some v) => some v
  | _ => none

/-- The runtime attribute value of a patch field (`user_data.email` etc.). -/
def attrValue {α : Type} (f : Option (Option α)) : Option α := f.join

/-- Whether the filtered `update_data` dict of a user patch is nonempty. -/
def UserUpdate.hasEffField (p : UserUpdate) : Bool :=
  (effField p.username).isSome || (effField p.email).isSome ||
    (effField p.description).isSome

/-- Whether the filtered `update_data` dict of a product patch is nonempty. -/
def ProductUpdate.hasEffField (p : ProductUpdate) : Bool :=
  (effField p.name).isSome || (effField p.description).isSome ||
    (effField p.price).isSome || (effField p.stock_quantity).isSome

/-! ## Repositories (`app/repositories/user_repository.py`,
`app/repositories/product_repository.py`)

The database is the list of rows; `scalar_one_or_none` on a primary-key
select is `find?`.  `setattr` loops write exactly the filtered
`update_data` fields.  The flush compares every assigned attribute with
its committed value (`History.from_scalar_attribute` discards a set to an
equal value) and emits an UPDATE only when some assigned attribute has a
net change; only then does the `onupdate=datetime.now` column default of
`app/models.py` refresh `updated_at`. -/

/-- `select(User).where(User.id == user_id)`, `scalar_one_or_none()`. -/
def dbFindUser (db : List UserRec) (uid : Int) : Option UserRec :=
  db.find? (fun u => u.id = uid)

/-- Replace the row with id `uid`. -/
def dbReplaceUser (db : List UserRec) (uid : Int) (u' : UserRec) : List UserRec :=
  db.map (fun u => if u.id = uid then u' else u)

/-- Remove the row with id `uid`. -/
def dbRemoveUser (db : List UserRec) (uid : Int) : List UserRec :=
  db.filter (fun u => u.id ≠ uid)

/-- The `setattr` loop of `UserRepository.update` over the filtered
`update_data`. -/
def applyUserFields (u : UserRec) (p : UserUpdate) : UserRec :=
  { u with
    username := (effField p.username).getD u.username
    email := (effField p.email).getD u.email
    description :=
      match effField p.description with
      | some v => some v
      | none => u.description }

/-- Whether the `setattr` loop produced a net change: some applied patch
field differs from the row's committed value.  This is the condition under
which SQLAlchemy's flush emits an UPDATE (and hence fires `onupdate`); a
patch re-setting every field to its current value emits nothing. -/
def userPatchChanges (u : UserRec) (p : UserUpdate) : Bool :=
  (match effField p.username with | some v => v ≠ u.username | none => false)
  || (match effField p.email with | some v => v ≠ u.email | none => false)
  || (match effField p.description with | some v => some v ≠ u.description | none => false)

/-- `UserRepository.update`: fetch, `ValueError` when absent, apply the
filtered patch, flush — which emits an UPDATE (refreshing `updated_at`
through `onupdate`) only when some assigned attribute has a net change —
and return the refreshed row. -/
def UserRepository_update (db : List UserRec) (uid : Int) (p : UserUpdate) (now : DT) :
    Except PyErr (List UserRec × UserRec) :=
  match dbFindUser db uid with
  | none => .error (.notFound "User" uid)
  | some u =>
    let u1 := applyUserFields u p
    let u2 := if userPatchChanges u p then { u1 with updated_at := some now } else u1
    .ok (dbReplaceUser db uid u2, u2)

/-- `UserRepository.delete`: fetch, `ValueError` when absent, delete. -/
def UserRepository_delete (db : List UserRec) (uid : Int) : Except PyErr (List UserRec) :=
  match dbFindUser db uid with
  | none => .error (.notFound "User" uid)
  | some _ => .ok (dbRemoveUser db uid)

/-- `select(Product).where(Product.id == product_id)`, `scalar_one_or_none()`. -/
def dbFindProduct (db : List ProductRec) (pid : Int) : Option ProductRec :=
  db.find? (fun p => p.id = pid)

/-- Replace the row with id `pid`. -/
def dbReplaceProduct (db : List ProductRec) (pid : Int) (p' : ProductRec) : List ProductRec :=
  db.map (fun p => if p.id = pid then p' else p)

/-- Remove the row with id `pid`. -/
def dbRemoveProduct (db : List ProductRec) (pid : Int) : List ProductRec :=
  db.filter (fun p => p.id ≠ pid)

/-- The `setattr` loop of `ProductRepository.update` over the filtered
`update_data`. -/
def applyProductFields (pr : ProductRec) (p : ProductUpdate) : ProductRec :=
  { pr with
    name := (effField p.name).getD pr.name
    description :=
      match effField p.description with
      | some v => some v
      | none => pr.description
    price := (effField p.price).getD pr.price
    stock_quantity := (effField p.stock_quantity).getD pr.stock_quantity }

/-- Whether the product `setattr` loop produced a net change (see
`userPatchChanges`). -/
def productPatchChanges (pr : ProductRec) (p : ProductUpdate) : Bool :=
  (match effField p.name with | some v => v ≠ pr.name | none => false)
  || (match effField p.description with | some v => some v ≠ pr.description | none => false)
  || (match effField p.price with | some v => v ≠ pr.price | none => false)
  || (match effField p.stock_quantity with | some v => v ≠ pr.stock_quantity | none => false)

/-- `ProductRepository.update`; same flush semantics as
`UserRepository_update`. -/
def ProductRepository_update (db : List ProductRec) (pid : Int) (p : ProductUpdate)
    (now : DT) : Except PyErr (List ProductRec × ProductRec) :=
  match dbFindProduct db pid with
  | none => .error (.notFound "Product" pid)
  | some pr =>
    let p1 := applyProductFields pr p
    let p2 := if productPatchChanges pr p then { p1 with updated_at := some now } else p1
    .ok (dbReplaceProduct db pid p2, p2)

/-- `ProductRepository.delete`. -/
def ProductRepository_delete (db : List ProductRec) (pid : Int) :
    Except PyErr (List ProductRec) :=
  match dbFindProduct db pid with
  | none => .error (.notFound "Product" pid)
  | some _ => .ok (dbRemoveProduct db pid)

/-! ## Cache-backed services

`UserService` of `main_app/app/services/user_service.py` and
`ProductService` of `lab2/app/services/product_service.py`.  `hasRedis`
is whether `self.redis_client` is not `None`.  Each method returns the
state it leaves behind (persistence rolls back on a raise, so a raising
method that has not committed leaves the database unchanged) together
with its Python outcome. -/

/-- Combined state a user-service call touches. -/
structure UserSvc where
  db : List UserRec
  redis : RedisState

/-- Combined state a product-service call touches. -/
structure ProdSvc where
  db : List ProductRec
  redis : RedisState

/-- The miss path of `UserService.get_by_id`: read persistence and, when a
row was found and a Redis client exists, best-effort populate the cache
under `except (ValueError, TypeError, redis.RedisError)`. -/
def userSvc_populate (hasRedis : Bool) (db : List UserRec) (r : RedisState) (uid : Int) :
    UserSvc × Except PyErr (Option UserObj) :=
  match dbFindUser db uid with
  | none => (⟨db, r⟩, .ok none)
  | some u =>
    if hasRedis then
      match set_user_to_cache r uid (serializeUser u) with
      | (r2, .ok _) => (⟨db, r2⟩, .ok (some u.toObj))
      | (r2, .error e) =>
        if e.caughtByVTR then (⟨db, r2⟩, .ok (some u.toObj)) else (⟨db, r2⟩, .error e)
    else (⟨db, r⟩, .ok (some u.toObj))

/-- `UserService.get_by_id`. -/
def userSvc_get_by_id (hasRedis : Bool) (st : UserSvc) (uid : Int) :
    UserSvc × Except PyErr (Option UserObj) :=
  if hasRedis then
    match get_user_from_cache st.redis uid with
    | (r1, .error e) => (⟨st.db, r1⟩, .error e)
    | (r1, .ok (some cached)) =>
      match decodeUserHit cached with
      | .ok uobj => (⟨st.db, r1⟩, .ok (some uobj))
      | .error e => (⟨st.db, r1⟩, .error e)
    | (r1, .ok none) => userSvc_populate hasRedis st.db r1 uid
  else userSvc_populate hasRedis st.db st.redis uid

/-- `UserService.update`: existence check, email/username uniqueness
checks, repository update + commit, then cache invalidation under
`except redis.RedisError`. -/
def userSvc_update (hasRedis : Bool) (st : UserSvc) (uid : Int) (p : UserUpdate)
    (now : DT) : UserSvc × Except PyErr UserRec :=
  match dbFindUser st.db uid with
  | none => (st, .error (.notFound "User" uid))
  | some existing =>
    let emailConflict : Bool :=
      match attrValue p.email with
      | some s => s ≠ "" && s ≠ existing.email && st.db.any (fun u => u.email = s)
      | none => false
    if emailConflict then (st, .error (.alreadyExists "email"))
    else
      let usernameConflict : Bool :=
        match attrValue p.username with
        | some s => s ≠ "" && s ≠ existing.username && st.db.any (fun u => u.username = s)
        | none => false
      if usernameConflict then (st, .error (.alreadyExists "username"))
      else
        match UserRepository_update st.db uid p now with
        | .error e => (st, .error e)
        | .ok (db', u') =>
          if hasRedis then
            match delete_user_from_cache st.redis uid with
            | (r2, .ok _) => (⟨db', r2⟩, .ok u')
            | (r2, .error e) =>
              if e.isRedisError then (⟨db', r2⟩, .ok u') else (⟨db', r2⟩, .error e)
          else (⟨db', st.redis⟩, .ok u')

/-- `UserService.delete`: repository delete + commit, then cache
invalidation under `except redis.RedisError`. -/
def userSvc_delete (hasRedis : Bool) (st : UserSvc) (uid : Int) :
    UserSvc × Except PyErr Unit :=
  match UserRepository_delete st.db uid with
  | .error e => (st, .error e)
  | .ok db' =>
    if hasRedis then
      match delete_user_from_cache st.redis uid with
      | (r2, .ok _) => (⟨db', r2⟩, .ok ())
      | (r2, .error e) =>
        if e.isRedisError then (⟨db', r2⟩, .ok ()) else (⟨db', r2⟩, .error e)
    else (⟨db', st.redis⟩, .ok ())

/-- The miss path of `ProductService.get_by_id`. -/
def prodSvc_populate (hasRedis : Bool) (db : List ProductRec) (r : RedisState) (pid : Int) :
    ProdSvc × Except PyErr (Option ProductObj) :=
  match dbFindProduct db pid with
  | none => (⟨db, r⟩, .ok none)
  | some pr =>
    if hasRedis then
      match set_product_to_cache r pid (serializeProduct pr) with
      | (r2, .ok _) => (⟨db, r2⟩, .ok (some pr.toObj))
      | (r2, .error e) =>
        if e.caughtByVTR then (⟨db, r2⟩, .ok (some pr.toObj)) else (⟨db, r2⟩, .error e)
    else (⟨db, r⟩, .ok (some pr.toObj))

/-- `ProductService.get_by_id`. -/
def prodSvc_get_by_id (hasRedis : Bool) (st : ProdSvc) (pid : Int) :
    ProdSvc × Except PyErr (Option ProductObj) :=
  if hasRedis then
    match get_product_from_cache st.redis pid with
    | (r1, .error e) => (⟨st.db, r1⟩, .error e)
    | (r1, .ok (some cached)) =>
      match decodeProductHit cached with
      | .ok pobj => (⟨st.db, r1⟩, .ok (some pobj))
      | .error e => (⟨st.db, r1⟩, .error e)
    | (r1, .ok none) => prodSvc_populate hasRedis st.db r1 pid
  else prodSvc_populate hasRedis st.db st.redis pid

/-- `ProductService.update`: existence check, price/stock validation,
repository update + commit, then write-through cache refresh under
`except (ValueError, TypeError, redis.RedisError)`. -/
def prodSvc_update (hasRedis : Bool) (st : ProdSvc) (pid : Int) (p : ProductUpdate)
    (now : DT) : ProdSvc × Except PyErr ProductRec :=
  match dbFindProduct st.db pid with
  | none => (st, .error (.notFound "Product" pid))
  | some _ =>
    let badPrice : Bool :=
      match attrValue p.price with
      | some q => q ≤ 0
      | none => false
    if badPrice then (st, .error (.invalidField "price"))
    else
      let badStock : Bool :=
        match attrValue p.stock_quantity with
        | some n => n < 0
        | none => false
      if badStock then (st, .error (.invalidField "stock_quantity"))
      else
        match ProductRepository_update st.db pid p now with
        | .error e => (st, .error e)
        | .ok (db', pr') =>
          if hasRedis then
            match update_product_in_cache st.redis pid (serializeProduct pr') with
            | (r2, .ok _) => (⟨db', r2⟩, .ok pr')
            | (r2, .error e) =>
              if e.caughtByVTR then (⟨db', r2⟩, .ok pr') else (⟨db', r2⟩, .error e)
          else (⟨db', st.redis⟩, .ok pr')

/-- `ProductService.delete`: repository delete + commit, then cache
invalidation under `except redis.RedisError`. -/
def prodSvc_delete (hasRedis : Bool) (st : ProdSvc) (pid : Int) :
    ProdSvc × Except PyErr Unit :=
  match ProductRepository_delete st.db pid with
  | .error e => (st, .error e)
  | .ok db' =>
    if hasRedis then
      match delete_product_from_cache st.redis pid with
      | (r2, .ok _) => (⟨db', r2⟩, .ok ())
      | (r2, .error e) =>
        if e.isRedisError then (⟨db', r2⟩, .ok ()) else (⟨db', r2⟩, .error e)
    else (⟨db', st.redis⟩, .ok ())

/-! ## Request sequences

One inbound request per list element; a failed request leaves its
(rolled-back) state to the next one. -/

/-- One user-entity request. -/
inductive UserOp where
  | get (uid : Int)
  | update (uid : Int) (p : UserUpdate) (now : DT)
  | del (uid : Int)

/-- Successful outcome of a user-entity request. -/
inductive UserOut where
  | got (r : Option UserObj)
  | updated (u : UserRec)
  | deleted

/-- One product-entity request. -/
inductive ProdOp where
  | get (pid : Int)
  | update (pid : Int) (p : ProductUpdate) (now : DT)
  | del (pid : Int)

/-- Successful outcome of a product-entity request. -/
inductive ProdOut where
  | got (r : Option ProductObj)
  | updated (p : ProductRec)
  | deleted

/-- Dispatch one user request to the service. -/
def runUserOp (hasRedis : Bool) (st : UserSvc) : UserOp → UserSvc × Except PyErr UserOut
  | .get uid =>
    let r := userSvc_get_by_id hasRedis st uid
    (r.1, r.2.map .got)
  | .update uid p now =>
    let r := userSvc_update hasRedis st uid p now
    (r.1, r.2.map .updated)
  | .del uid =>
    let r := userSvc_delete hasRedis st uid
    (r.1, r.2.map fun _ => .deleted)

/-- Run a sequence of user requests, collecting each outcome. -/
def runUserOps (hasRedis : Bool) (st : UserSvc) :
    List UserOp → List (Except PyErr UserOut) × UserSvc
  | [] => ([], st)
  | op :: rest =>
    let r := runUserOp hasRedis st op
    let rs := runUserOps hasRedis r.1 rest
    (r.2 :: rs.1, rs.2)

/-- Dispatch one product request to the service. -/
def runProdOp (hasRedis : Bool) (st : ProdSvc) : ProdOp → ProdSvc × Except PyErr ProdOut
  | .get pid =>
    let r := prodSvc_get_by_id hasRedis st pid
    (r.1, r.2.map .got)
  | .update pid p now =>
    let r := prodSvc_update hasRedis st pid p now
    (r.1, r.2.map .updated)
  | .del pid =>
    let r := prodSvc_delete hasRedis st pid
    (r.1, r.2.map fun _ => .deleted)

/-- Run a sequence of product requests, collecting each outcome. -/
def runProdOps (hasRedis : Bool) (st : ProdSvc) :
    List ProdOp → List (Except PyErr ProdOut) × ProdSvc
  | [] => ([], st)
  | op :: rest =>
    let r := runProdOp hasRedis st op
    let rs := runProdOps hasRedis r.1 rest
    (r.2 :: rs.1, rs.2)

/-! ## Behaviour of the cache helpers per connectivity mode -/

theorem cacheGetRaw_down (c : List (String × Stored × Nat)) (k : String) :
    cacheGetRaw ⟨.down, c⟩ k = (⟨.down, c⟩, .ok none) := rfl

theorem cacheSetRaw_down (c : List (String × Stored × Nat)) (k : String) (ttl : Nat)
    (d : JVal) : cacheSetRaw ⟨.down, c⟩ k ttl d = (⟨.down, c⟩, .ok ()) := by
  unfold cacheSetRaw jsonDumps
  by_cases h : d.encodable <;>
    simp [h, redisSetex, PyErr.isConnectionError, PyErr.isTypeError, PyErr.isValueError]

theorem cacheDelRaw_down (c : List (String × Stored × Nat)) (k : String) :
    cacheDelRaw ⟨.down, c⟩ k = (⟨.down, c⟩, .ok ()) := rfl

theorem cacheSetRaw_timeouts (c : List (String × Stored × Nat)) (k : String) (ttl : Nat)
    (d : JVal) : cacheSetRaw ⟨.timeouts, c⟩ k ttl d
      = (⟨.timeouts, c⟩, if d.encodable then .error .timeoutErr else .ok ()) := by
  unfold cacheSetRaw jsonDumps
  by_cases h : d.encodable <;>
    simp [h, redisSetex, PyErr.isConnectionError, PyErr.isTypeError, PyErr.isValueError]

theorem cacheDelRaw_timeouts (c : List (String × Stored × Nat)) (k : String) :
    cacheDelRaw ⟨.timeouts, c⟩ k = (⟨.timeouts, c⟩, .error .timeoutErr) := rfl

theorem cacheGetRaw_timeouts (c : List (String × Stored × Nat)) (k : String) :
    cacheGetRaw ⟨.timeouts, c⟩ k = (⟨.timeouts, c⟩, .error .timeoutErr) := rfl

theorem cacheDelRaw_up (c : List (String × Stored × Nat)) (k : String) :
    cacheDelRaw ⟨.up, c⟩ k = (⟨.up, (storeDel c k).1⟩, .ok ()) := rfl

theorem cacheGetRaw_up_none {c : List (String × Stored × Nat)} {k : String}
    (h : storeGet c k = none) : cacheGetRaw ⟨.up, c⟩ k = (⟨.up, c⟩, .ok none) := by
  unfold cacheGetRaw redisGet
  simp [h]

theorem cacheGetRaw_up_json {c : List (String × Stored × Nat)} {k : String} {v : JVal}
    {t : Nat} (h : storeGet c k = some (.json v, t)) (hv : v ≠ .null) :
    cacheGetRaw ⟨.up, c⟩ k = (⟨.up, c⟩, .ok (some v)) := by
  unfold cacheGetRaw redisGet
  cases v <;> simp_all [jsonLoads]

theorem cacheGetRaw_up_corrupt {c : List (String × Stored × Nat)} {k : String}
    {t : Nat} (h : storeGet c k = some (.corrupt, t)) :
    cacheGetRaw ⟨.up, c⟩ k = (⟨.up, (storeDel c k).1⟩, .ok none) := by
  unfold cacheGetRaw redisGet
  simp [h, jsonLoads, PyErr.isJSONDecodeError, redisDelete]

theorem cacheSetRaw_up {d : JVal} (c : List (String × Stored × Nat)) (k : String)
    (ttl : Nat) (h : d.encodable) :
    cacheSetRaw ⟨.up, c⟩ k ttl d = (⟨.up, storeSet c k (.json d) ttl⟩, .ok ()) := by
  unfold cacheSetRaw jsonDumps
  simp [h, redisSetex]

theorem cacheSetRaw_up_unencodable {d : JVal} (c : List (String × Stored × Nat))
    (k : String) (ttl : Nat) (h : d.encodable = false) :
    cacheSetRaw ⟨.up, c⟩ k ttl d = (⟨.up, c⟩, .ok ()) := by
  unfold cacheSetRaw jsonDumps
  simp [h, PyErr.isConnectionError, PyErr.isTypeError]

theorem serializeUser_encodable (u : UserRec) : (serializeUser u).encodable = true := by
  rcases u with ⟨i, un, em, d, ca, ua⟩
  cases d <;> cases ua <;> rfl

theorem serializeProduct_encodable (p : ProductRec) :
    (serializeProduct p).encodable = true := by
  rcases p with ⟨i, nm, d, pr, sq, ca, ua⟩
  cases d <;> cases ua <;> rfl

/-! ## Service-level behaviour lemmas -/

theorem userSvc_get_off (db : List UserRec) (r : RedisState) (uid : Int) :
    userSvc_get_by_id false ⟨db, r⟩ uid
      = (⟨db, r⟩, .ok ((dbFindUser db uid).map UserRec.toObj)) := by
  unfold userSvc_get_by_id userSvc_populate
  cases h : dbFindUser db uid <;> simp [h]

theorem userSvc_get_down (db : List UserRec) (c : List (String × Stored × Nat))
    (uid : Int) : userSvc_get_by_id true ⟨db, ⟨.down, c⟩⟩ uid
      = (⟨db, ⟨.down, c⟩⟩, .ok ((dbFindUser db uid).map UserRec.toObj)) := by
  unfold userSvc_get_by_id get_user_from_cache
  rw [cacheGetRaw_down]
  unfold userSvc_populate
  cases h : dbFindUser db uid <;>
    simp [h, set_user_to_cache, cacheSetRaw_down]

theorem prodSvc_get_off (db : List ProductRec) (r : RedisState) (pid : Int) :
    prodSvc_get_by_id false ⟨db, r⟩ pid
      = (⟨db, r⟩, .ok ((dbFindProduct db pid).map ProductRec.toObj)) := by
  unfold prodSvc_get_by_id prodSvc_populate
  cases h : dbFindProduct db pid <;> simp [h]

theorem prodSvc_get_down (db : List ProductRec) (c : List (String × Stored × Nat))
    (pid : Int) : prodSvc_get_by_id true ⟨db, ⟨.down, c⟩⟩ pid
      = (⟨db, ⟨.down, c⟩⟩, .ok ((dbFindProduct db pid).map ProductRec.toObj)) := by
  unfold prodSvc_get_by_id get_product_from_cache
  rw [cacheGetRaw_down]
  unfold prodSvc_populate
  cases h : dbFindProduct db pid <;>
    simp [h, set_product_to_cache, cacheSetRaw_down]

theorem isoformat_ne_empty (d : DT) : isoformat d ≠ "" := by
  unfold isoformat
  split_ifs with h
  · decide
  · intro hc
    have hd : (String.mk (((Nat.digits 10 d).reverse).map digitChar)).data
        = ("" : String).data := by rw [hc]
    have : ((Nat.digits 10 d).reverse).map digitChar = [] := hd
    exact Nat.digits_ne_nil_iff_ne_zero.mpr h (by simpa using this)

/-- Decoding the service's serialized form of a user recovers exactly the
persisted attribute values. -/
theorem decodeUserHit_serialize (u : UserRec) :
    decodeUserHit (serializeUser u) = .ok u.toObj := by
  rcases u with ⟨i, un, em, d, ca, ua⟩
  cases d <;> cases ua <;>
    simp [decodeUserHit, serializeUser, pyIndex, pyGetMethod, lookupField,
      parseTimeField, parseOptTimeField, fromisoformat_isoformat, JVal.truthy,
      isoformat_ne_empty, UserRec.toObj, Option.elim]

/-- Decoding the service's serialized form of a product recovers exactly the
persisted attribute values. -/
theorem decodeProductHit_serialize (p : ProductRec) :
    decodeProductHit (serializeProduct p) = .ok p.toObj := by
  rcases p with ⟨i, nm, d, pr, sq, ca, ua⟩
  cases d <;> cases ua <;>
    simp [decodeProductHit, serializeProduct, pyIndex, pyGetMethod, lookupField,
      parseTimeField, parseOptTimeField, fromisoformat_isoformat, JVal.truthy,
      isoformat_ne_empty, ProductRec.toObj, Option.elim]

theorem storeGet_storeSet_self (l : List (String × Stored × Nat)) (k : String)
    (v : Stored) (ttl : Nat) : storeGet (storeSet l k v ttl) k = some (v, ttl) := by
  simp [storeGet, storeSet]

theorem storeGet_storeDel_self (l : List (String × Stored × Nat)) (k : String) :
    storeGet (storeDel l k).1 k = none := by
  simp [storeGet, storeDel]

theorem userSvc_populate_up (db : List UserRec) (c : List (String × Stored × Nat))
    (uid : Int) : userSvc_populate true db ⟨.up, c⟩ uid
      = (⟨db, match dbFindUser db uid with
              | none => ⟨.up, c⟩
              | some u => ⟨.up, storeSet c (cacheKeyUser uid)
                            (.json (serializeUser u)) 3600⟩⟩,
         .ok ((dbFindUser db uid).map UserRec.toObj)) := by
  unfold userSvc_populate
  cases h : dbFindUser db uid <;>
    simp [h, set_user_to_cache, cacheSetRaw_up, serializeUser_encodable]

theorem prodSvc_populate_up (db : List ProductRec) (c : List (String × Stored × Nat))
    (pid : Int) : prodSvc_populate true db ⟨.up, c⟩ pid
      = (⟨db, match dbFindProduct db pid with
              | none => ⟨.up, c⟩
              | some pr => ⟨.up, storeSet c (cacheKeyProduct pid)
                            (.json (serializeProduct pr)) 600⟩⟩,
         .ok ((dbFindProduct db pid).map ProductRec.toObj)) := by
  unfold prodSvc_populate
  cases h : dbFindProduct db pid <;>
    simp [h, set_product_to_cache, cacheSetRaw_up, serializeProduct_encodable]

theorem userSvc_get_up_miss {c : List (String × Stored × Nat)} {uid : Int}
    (db : List UserRec) (h : storeGet c (cacheKeyUser uid) = none) :
    userSvc_get_by_id true ⟨db, ⟨.up, c⟩⟩ uid = userSvc_populate true db ⟨.up, c⟩ uid := by
  unfold userSvc_get_by_id get_user_from_cache
  rw [cacheGetRaw_up_none h]
  rfl

theorem userSvc_get_up_hit {c : List (String × Stored × Nat)} {uid : Int} {v : JVal}
    {t : Nat} (db : List UserRec) (h : storeGet c (cacheKeyUser uid) = some (.json v, t))
    (hv : v ≠ .null) :
    userSvc_get_by_id true ⟨db, ⟨.up, c⟩⟩ uid
      = match decodeUserHit v with
        | .ok uobj => (⟨db, ⟨.up, c⟩⟩, .ok (some uobj))
        | .error e => (⟨db, ⟨.up, c⟩⟩, .error e) := by
  unfold userSvc_get_by_id get_user_from_cache
  rw [cacheGetRaw_up_json h hv]
  rfl

theorem userSvc_get_up_corrupt {c : List (String × Stored × Nat)} {uid : Int}
    {t : Nat} (db : List UserRec) (h : storeGet c (cacheKeyUser uid) = some (.corrupt, t)) :
    userSvc_get_by_id true ⟨db, ⟨.up, c⟩⟩ uid
      = userSvc_populate true db ⟨.up, (storeDel c (cacheKeyUser uid)).1⟩ uid := by
  unfold userSvc_get_by_id get_user_from_cache
  rw [cacheGetRaw_up_corrupt h]
  rfl

theorem userSvc_get_timeouts (db : List UserRec) (c : List (String × Stored × Nat))
    (uid : Int) : userSvc_get_by_id true ⟨db, ⟨.timeouts, c⟩⟩ uid
      = (⟨db, ⟨.timeouts, c⟩⟩, .error .timeoutErr) := by
  unfold userSvc_get_by_id get_user_from_cache
  rw [cacheGetRaw_timeouts]
  rfl

theorem prodSvc_get_up_hit {c : List (String × Stored × Nat)} {pid : Int} {v : JVal}
    {t : Nat} (db : List ProductRec)
    (h : storeGet c (cacheKeyProduct pid) = some (.json v, t)) (hv : v ≠ .null) :
    prodSvc_get_by_id true ⟨db, ⟨.up, c⟩⟩ pid
      = match decodeProductHit v with
        | .ok pobj => (⟨db, ⟨.up, c⟩⟩, .ok (some pobj))
        | .error e => (⟨db, ⟨.up, c⟩⟩, .error e) := by
  unfold prodSvc_get_by_id get_product_from_cache
  rw [cacheGetRaw_up_json h hv]
  rfl

theorem prodSvc_get_timeouts (db : List ProductRec) (c : List (String × Stored × Nat))
    (pid : Int) : prodSvc_get_by_id true ⟨db, ⟨.timeouts, c⟩⟩ pid
      = (⟨db, ⟨.timeouts, c⟩⟩, .error .timeoutErr) := by
  unfold prodSvc_get_by_id get_product_from_cache
  rw [cacheGetRaw_timeouts]
  rfl

/-- The persistence-side outcome of `UserService.update` (existence check,
uniqueness checks, repository update), isolated from the cache step. -/
def userUpdatePersist (db : List UserRec) (uid : Int) (p : UserUpdate) (now : DT) :
    Except PyErr (List UserRec × UserRec) :=
  match dbFindUser db uid with
  | none => .error (.notFound "User" uid)
  | some existing =>
    let emailConflict : Bool :=
      match attrValue p.email with
      | some s => s ≠ "" && s ≠ existing.email && db.any (fun u => u.email = s)
      | none => false
    if emailConflict then .error (.alreadyExists "email")
    else
      let usernameConflict : Bool :=
        match attrValue p.username with
        | some s => s ≠ "" && s ≠ existing.username && db.any (fun u => u.username = s)
        | none => false
      if usernameConflict then .error (.alreadyExists "username")
      else UserRepository_update db uid p now

/-- The persistence-side outcome of `ProductService.update` (existence
check, validation, repository update), isolated from the cache step. -/
def prodUpdatePersist (db : List ProductRec) (pid : Int) (p : ProductUpdate) (now : DT) :
    Except PyErr (List ProductRec × ProductRec) :=
  match dbFindProduct db pid with
  | none => .error (.notFound "Product" pid)
  | some _ =>
    let badPrice : Bool :=
      match attrValue p.price with
      | some q => q ≤ 0
      | none => false
    if badPrice then .error (.invalidField "price")
    else
      let badStock : Bool :=
        match attrValue p.stock_quantity with
        | some n => n < 0
        | none => false
      if badStock then .error (.invalidField "stock_quantity")
      else ProductRepository_update db pid p now

theorem userSvc_update_char (hasRedis : Bool) (db : List UserRec) (r : RedisState)
    (uid : Int) (p : UserUpdate) (now : DT) :
    userSvc_update hasRedis ⟨db, r⟩ uid p now
      = match userUpdatePersist db uid p now with
        | .error e => (⟨db, r⟩, .error e)
        | .ok (db', u') =>
          (⟨db', if hasRedis then (cacheDelRaw r (cacheKeyUser uid)).1 else r⟩, .ok u') := by
  unfold userSvc_update userUpdatePersist
  cases h : dbFindUser db uid with
  | none => simp
  | some existing =>
    dsimp only
    split_ifs <;> try rfl
    all_goals
      cases h3 : UserRepository_update db uid p now with
      | error e => rfl
      | ok q =>
        obtain ⟨db', u'⟩ := q
        try rfl
        obtain ⟨m, c⟩ := r
        cases m <;>
          simp [delete_user_from_cache, cacheDelRaw_up, cacheDelRaw_down,
            cacheDelRaw_timeouts, PyErr.isRedisError]

theorem userSvc_delete_char (hasRedis : Bool) (db : List UserRec) (r : RedisState)
    (uid : Int) :
    userSvc_delete hasRedis ⟨db, r⟩ uid
      = match UserRepository_delete db uid with
        | .error e => (⟨db, r⟩, .error e)
        | .ok db' =>
          (⟨db', if hasRedis then (cacheDelRaw r (cacheKeyUser uid)).1 else r⟩, .ok ()) := by
  unfold userSvc_delete
  cases h : UserRepository_delete db uid with
  | error e => simp
  | ok db' =>
    cases hasRedis with
    | false => simp
    | true =>
      obtain ⟨m, c⟩ := r
      cases m <;>
        simp [delete_user_from_cache, cacheDelRaw_up, cacheDelRaw_down,
          cacheDelRaw_timeouts, PyErr.isRedisError]

theorem prodSvc_update_char (hasRedis : Bool) (db : List ProductRec) (r : RedisState)
    (pid : Int) (p : ProductUpdate) (now : DT) :
    prodSvc_update hasRedis ⟨db, r⟩ pid p now
      = match prodUpdatePersist db pid p now with
        | .error e => (⟨db, r⟩, .error e)
        | .ok (db', pr') =>
          (⟨db', if hasRedis
                 then (update_product_in_cache r pid (serializeProduct pr')).1
                 else r⟩, .ok pr') := by
  unfold prodSvc_update prodUpdatePersist
  cases h : dbFindProduct db pid with
  | none => simp
  | some existing =>
    dsimp only
    split_ifs <;> try rfl
    all_goals
      cases h3 : ProductRepository_update db pid p now with
      | error e => rfl
      | ok q =>
        obtain ⟨db', pr'⟩ := q
        try rfl
        obtain ⟨m, c⟩ := r
        cases m <;>
          simp [update_product_in_cache, cacheSetRaw_up, cacheSetRaw_down,
            cacheSetRaw_timeouts, serializeProduct_encodable, PyErr.caughtByVTR,
            PyErr.isRedisError, PyErr.isValueError, PyErr.isTypeError]

theorem prodSvc_delete_char (hasRedis : Bool) (db : List ProductRec) (r : RedisState)
    (pid : Int) :
    prodSvc_delete hasRedis ⟨db, r⟩ pid
      = match ProductRepository_delete db pid with
        | .error e => (⟨db, r⟩, .error e)
        | .ok db' =>
          (⟨db', if hasRedis then (cacheDelRaw r (cacheKeyProduct pid)).1 else r⟩,
           .ok ()) := by
  unfold prodSvc_delete
  cases h : ProductRepository_delete db pid with
  | error e => simp
  | ok db' =>
    cases hasRedis with
    | false => simp
    | true =>
      obtain ⟨m, c⟩ := r
      cases m <;>
        simp [delete_product_from_cache, cacheDelRaw_up, cacheDelRaw_down,
          cacheDelRaw_timeouts, PyErr.isRedisError]

theorem runUserOp_off_redis (db : List UserRec) (r : RedisState) (op : UserOp) :
    (runUserOp false ⟨db, r⟩ op).1.redis = r := by
  cases op with
  | get uid => simp [runUserOp, userSvc_get_off]
  | update uid p now =>
    simp only [runUserOp, userSvc_update_char]
    cases h : userUpdatePersist db uid p now with
    | error e => rfl
    | ok q => obtain ⟨db', u'⟩ := q; rfl
  | del uid =>
    simp only [runUserOp, userSvc_delete_char]
    cases h : UserRepository_delete db uid <;> rfl

theorem runUserOp_down (db : List UserRec) (c : List (String × Stored × Nat))
    (op : UserOp) :
    runUserOp true ⟨db, ⟨.down, c⟩⟩ op
      = ((⟨(runUserOp false ⟨db, ⟨.down, c⟩⟩ op).1.db, ⟨.down, c⟩⟩ : UserSvc),
         (runUserOp false ⟨db, ⟨.down, c⟩⟩ op).2) := by
  cases op with
  | get uid => simp [runUserOp, userSvc_get_down, userSvc_get_off]
  | update uid p now =>
    simp only [runUserOp, userSvc_update_char]
    cases h : userUpdatePersist db uid p now with
    | error e => rfl
    | ok q =>
      obtain ⟨db', u'⟩ := q
      simp [delete_user_from_cache, cacheDelRaw_down]
  | del uid =>
    simp only [runUserOp, userSvc_delete_char]
    cases h : UserRepository_delete db uid with
    | error e => rfl
    | ok db' => simp [delete_user_from_cache, cacheDelRaw_down]

theorem runUserOps_down (db : List UserRec) (c : List (String × Stored × Nat))
    (ops : List UserOp) :
    runUserOps true ⟨db, ⟨.down, c⟩⟩ ops
      = ((runUserOps false ⟨db, ⟨.down, c⟩⟩ ops).1,
         ⟨(runUserOps false ⟨db, ⟨.down, c⟩⟩ ops).2.db, ⟨.down, c⟩⟩) := by
  induction ops generalizing db with
  | nil => rfl
  | cons op rest ih =>
    simp only [runUserOps]
    rw [runUserOp_down db c op]
    have h2 := runUserOp_off_redis db ⟨.down, c⟩ op
    rcases hx : runUserOp false ⟨db, ⟨.down, c⟩⟩ op with ⟨st1, res⟩
    obtain ⟨db1, r1⟩ := st1
    rw [hx] at h2
    dsimp only at h2
    subst h2
    rw [ih db1]

theorem runProdOp_off_redis (db : List ProductRec) (r : RedisState) (op : ProdOp) :
    (runProdOp false ⟨db, r⟩ op).1.redis = r := by
  cases op with
  | get pid => simp [runProdOp, prodSvc_get_off]
  | update pid p now =>
    simp only [runProdOp, prodSvc_update_char]
    cases h : prodUpdatePersist db pid p now with
    | error e => rfl
    | ok q => obtain ⟨db', pr'⟩ := q; rfl
  | del pid =>
    simp only [runProdOp, prodSvc_delete_char]
    cases h : ProductRepository_delete db pid <;> rfl

theorem runProdOp_down (db : List ProductRec) (c : List (String × Stored × Nat))
    (op : ProdOp) :
    runProdOp true ⟨db, ⟨.down, c⟩⟩ op
      = ((⟨(runProdOp false ⟨db, ⟨.down, c⟩⟩ op).1.db, ⟨.down, c⟩⟩ : ProdSvc),
         (runProdOp false ⟨db, ⟨.down, c⟩⟩ op).2) := by
  cases op with
  | get pid => simp [runProdOp, prodSvc_get_down, prodSvc_get_off]
  | update pid p now =>
    simp only [runProdOp, prodSvc_update_char]
    cases h : prodUpdatePersist db pid p now with
    | error e => rfl
    | ok q =>
      obtain ⟨db', pr'⟩ := q
      simp [update_product_in_cache, cacheSetRaw_down]
  | del pid =>
    simp only [runProdOp, prodSvc_delete_char]
    cases h : ProductRepository_delete db pid with
    | error e => rfl
    | ok db' => simp [delete_product_from_cache, cacheDelRaw_down]

theorem runProdOps_down (db : List ProductRec) (c : List (String × Stored × Nat))
    (ops : List ProdOp) :
    runProdOps true ⟨db, ⟨.down, c⟩⟩ ops
      = ((runProdOps false ⟨db, ⟨.down, c⟩⟩ ops).1,
         ⟨(runProdOps false ⟨db, ⟨.down, c⟩⟩ ops).2.db, ⟨.down, c⟩⟩) := by
  induction ops generalizing db with
  | nil => rfl
  | cons op rest ih =>
    simp only [runProdOps]
    rw [runProdOp_down db c op]
    have h2 := runProdOp_off_redis db ⟨.down, c⟩ op
    rcases hx : runProdOp false ⟨db, ⟨.down, c⟩⟩ op with ⟨st1, res⟩
    obtain ⟨db1, r1⟩ := st1
    rw [hx] at h2
    dsimp only at h2
    subst h2
    rw [ih db1]

/-- **C1** — Cache transparency / fail-open availability: for both entities
and every sequence of `get_by_id`/`update`/`delete` requests, when every
cache-store operation fails with a connectivity error (the `down` mode, in
which each Redis command raises `redis.ConnectionError`), every request
returns exactly the same success-or-failure outcome as the same sequence
run against the persistence layer alone (the service with no Redis
client), the persistent database evolves identically, and no cache error
reaches any caller. -/
theorem C1_fail_open_transparency :
    (∀ (db : List UserRec) (c : List (String × Stored × Nat)) (ops : List UserOp),
      (runUserOps true ⟨db, ⟨.down, c⟩⟩ ops).1 = (runUserOps false ⟨db, ⟨.down, c⟩⟩ ops).1
      ∧ (runUserOps true ⟨db, ⟨.down, c⟩⟩ ops).2.db
          = (runUserOps false ⟨db, ⟨.down, c⟩⟩ ops).2.db)
    ∧ (∀ (db : List ProductRec) (c : List (String × Stored × Nat)) (ops : List ProdOp),
      (runProdOps true ⟨db, ⟨.down, c⟩⟩ ops).1 = (runProdOps false ⟨db, ⟨.down, c⟩⟩ ops).1
      ∧ (runProdOps true ⟨db, ⟨.down, c⟩⟩ ops).2.db
          = (runProdOps false ⟨db, ⟨.down, c⟩⟩ ops).2.db) := by
  constructor
  · intro db c ops
    rw [runUserOps_down db c ops]
    exact ⟨rfl, rfl⟩
  · intro db c ops
    rw [runProdOps_down db c ops]
    exact ⟨rfl, rfl⟩

theorem dbFindUser_replace {db : List UserRec} {uid : Int} (u' : UserRec)
    (h : (dbFindUser db uid).isSome) (hid : u'.id = uid) :
    dbFindUser (dbReplaceUser db uid u') uid = some u' := by
  induction db with
  | nil => simp [dbFindUser] at h
  | cons a t ih =>
    by_cases ha : a.id = uid
    · simp [dbFindUser, dbReplaceUser, List.find?, ha, hid]
    · have h' : (dbFindUser t uid).isSome := by
        simpa [dbFindUser, List.find?, ha] using h
      have ih' := ih h'
      simp [dbFindUser, dbReplaceUser, List.find?, ha] at ih' ⊢
      exact ih'

theorem userUpdatePersist_ok {db : List UserRec} {uid : Int} {p : UserUpdate}
    {now : DT} {db' : List UserRec} {u' : UserRec}
    (h : userUpdatePersist db uid p now = .ok (db', u')) :
    u'.id = uid ∧ db' = dbReplaceUser db uid u' ∧ (dbFindUser db uid).isSome := by
  unfold userUpdatePersist at h
  cases hf : dbFindUser db uid with
  | none => rw [hf] at h; cases h
  | some u =>
    rw [hf] at h
    dsimp only at h
    split_ifs at h
    unfold UserRepository_update at h
    rw [hf] at h
    dsimp only at h
    injection h with h2
    injection h2 with hdb hu
    have hpid : u.id = uid := by
      have := List.find?_some hf
      simpa using this
    have hid : u'.id = uid := by
      rw [← hu]
      by_cases he : userPatchChanges u p <;> simp [he, applyUserFields, hpid]
    refine ⟨hid, ?_, by simp [hf]⟩
    rw [← hdb, ← hu]

/-- Pre-update user row of the stale-read scenario. -/
def c2_u0 : UserRec := ⟨1, "alice", "a@x", none, 0, none⟩

/-- Patch setting only the description. -/
def c2_patch : UserUpdate := ⟨none, none, some (some "new")⟩

/-- Cache contents after a first `get_by_id` populated the cache while it
was reachable. -/
def c2_store1 : List (String × Stored × Nat) :=
  (userSvc_get_by_id true ⟨[c2_u0], ⟨.up, []⟩⟩ 1).1.redis.store

/-- The update, issued while the cache store is unreachable: the
persistence update succeeds, the invalidation attempt is swallowed. -/
def c2_afterUpdate : UserSvc × Except PyErr UserRec :=
  userSvc_update true ⟨[c2_u0], ⟨.down, c2_store1⟩⟩ 1 c2_patch 5

/-- A subsequent `get_by_id` once the cache store is reachable again. -/
def c2_finalGet : UserSvc × Except PyErr (Option UserObj) :=
  userSvc_get_by_id true ⟨c2_afterUpdate.1.db, ⟨.up, c2_afterUpdate.1.redis.store⟩⟩ 1

/-- **C2 counterexample** — the claim fails as stated: `update(1, patch)`
succeeds while the cache store is unreachable (the invalidation attempt is
swallowed and the key survives), and once the store is reachable again the
subsequent `get_by_id(1)` returns exactly the pre-update cached value,
whose `description` differs from the persisted post-update record's. -/
theorem C2_counterexample_stale_read :
    c2_afterUpdate.2 = .ok ⟨1, "alice", "a@x", some "new", 0, some 5⟩
    ∧ c2_finalGet.2 = .ok (some c2_u0.toObj)
    ∧ c2_u0.toObj.description ≠
        (⟨1, "alice", "a@x", some "new", 0, some 5⟩ : UserRec).toObj.description :=
  ⟨rfl, rfl, fun h => JVal.noConfusion h⟩

/-- **C2 (amended)** — after `update(userId, patch)` succeeds *with the
cache store reachable during the invalidation attempt*, a subsequent
`get_by_id(userId)` does not return the pre-update cached value: the
invalidation removed the key, so the read misses and returns the
post-update persisted record.  (The counterexample forces the added
proviso: when the invalidation attempt was swallowed by an unreachable
cache store, the stale entry survives and is served once the store is
reachable again.) -/
theorem C2_user_invalidation_amended (db : List UserRec)
    (c : List (String × Stored × Nat)) (uid : Int) (p : UserUpdate) (now : DT)
    (st' : UserSvc) (u' : UserRec)
    (h : userSvc_update true ⟨db, ⟨.up, c⟩⟩ uid p now = (st', .ok u')) :
    (userSvc_get_by_id true st' uid).2 = .ok (some u'.toObj) := by
  have hchar := userSvc_update_char true db ⟨.up, c⟩ uid p now
  rw [h] at hchar
  cases hp : userUpdatePersist db uid p now with
  | error e => rw [hp] at hchar; cases hchar
  | ok q =>
    obtain ⟨db', u2⟩ := q
    rw [hp] at hchar
    dsimp only at hchar
    simp only [delete_user_from_cache, cacheDelRaw_up] at hchar
    injection hchar with h1 h2
    injection h2 with h2
    subst h2
    obtain ⟨hid, hdb, hsome⟩ := userUpdatePersist_ok hp
    subst h1
    simp only [if_true]
    rw [userSvc_get_up_miss db' (storeGet_storeDel_self c (cacheKeyUser uid))]
    rw [userSvc_populate_up]
    rw [hdb, dbFindUser_replace u' hsome hid]
    rfl

/-- Closed instance of `C2_user_invalidation_amended`: a concrete update
with the cache reachable, followed by a read returning the new record. -/
theorem C2_user_invalidation_amended_witness :
    (userSvc_get_by_id true
        ⟨[⟨1, "bob", "b@x", some "x", 0, some 7⟩], ⟨.up, []⟩⟩ 1).2
      = .ok (some (⟨1, "bob", "b@x", some "x", 0, some 7⟩ : UserRec).toObj) :=
  C2_user_invalidation_amended [⟨1, "bob", "b@x", none, 0, none⟩] [] 1
    ⟨none, none, some (some "x")⟩ 7
    ⟨[⟨1, "bob", "b@x", some "x", 0, some 7⟩], ⟨.up, []⟩⟩
    ⟨1, "bob", "b@x", some "x", 0, some 7⟩ rfl

theorem dbFindProduct_replace {db : List ProductRec} {pid : Int} (p' : ProductRec)
    (h : (dbFindProduct db pid).isSome) (hid : p'.id = pid) :
    dbFindProduct (dbReplaceProduct db pid p') pid = some p' := by
  induction db with
  | nil => simp [dbFindProduct] at h
  | cons a t ih =>
    by_cases ha : a.id = pid
    · simp [dbFindProduct, dbReplaceProduct, List.find?, ha, hid]
    · have h' : (dbFindProduct t pid).isSome := by
        simpa [dbFindProduct, List.find?, ha] using h
      have ih' := ih h'
      simp [dbFindProduct, dbReplaceProduct, List.find?, ha] at ih' ⊢
      exact ih'

theorem prodUpdatePersist_ok {db : List ProductRec} {pid : Int} {p : ProductUpdate}
    {now : DT} {db' : List ProductRec} {pr' : ProductRec}
    (h : prodUpdatePersist db pid p now = .ok (db', pr')) :
    pr'.id = pid ∧ db' = dbReplaceProduct db pid pr' ∧ (dbFindProduct db pid).isSome := by
  unfold prodUpdatePersist at h
  cases hf : dbFindProduct db pid with
  | none => rw [hf] at h; cases h
  | some pr =>
    rw [hf] at h
    dsimp only at h
    split_ifs at h
    unfold ProductRepository_update at h
    rw [hf] at h
    dsimp only at h
    injection h with h2
    injection h2 with hdb hu
    have hpid : pr.id = pid := by
      have := List.find?_some hf
      simpa using this
    have hid : pr'.id = pid := by
      rw [← hu]
      by_cases he : productPatchChanges pr p <;> simp [he, applyProductFields, hpid]
    refine ⟨hid, ?_, by simp [hf]⟩
    rw [← hdb, ← hu]

/-- **C3** — Product refresh correctness: whenever
`ProductService.update(productId, patch)` succeeds with the cache store
reachable, the cache entry at `product:{productId}` holds exactly the
serialized post-update fields of the record now persisted (an overwrite,
not a deletion), stored with its TTL reset to 600 seconds. -/
theorem C3_product_refresh (db : List ProductRec) (c : List (String × Stored × Nat))
    (pid : Int) (p : ProductUpdate) (now : DT) (st' : ProdSvc) (pr' : ProductRec)
    (h : prodSvc_update true ⟨db, ⟨.up, c⟩⟩ pid p now = (st', .ok pr')) :
    storeGet st'.redis.store (cacheKeyProduct pid)
      = some (.json (serializeProduct pr'), 600)
    ∧ dbFindProduct st'.db pid = some pr' := by
  have hchar := prodSvc_update_char true db ⟨.up, c⟩ pid p now
  rw [h] at hchar
  cases hp : prodUpdatePersist db pid p now with
  | error e => rw [hp] at hchar; cases hchar
  | ok q =>
    obtain ⟨db', p2⟩ := q
    rw [hp] at hchar
    dsimp only at hchar
    simp only [update_product_in_cache,
      cacheSetRaw_up _ _ _ (serializeProduct_encodable p2), if_true] at hchar
    injection hchar with h1 h2
    injection h2 with h2
    subst h2
    obtain ⟨hid, hdb, hsome⟩ := prodUpdatePersist_ok hp
    subst h1
    refine ⟨?_, ?_⟩
    · exact storeGet_storeSet_self c (cacheKeyProduct pid) _ 600
    · dsimp only
      rw [hdb, dbFindProduct_replace pr' hsome hid]

/-- Closed instance of `C3_product_refresh`: a concrete price update with
the cache reachable leaves the refreshed serialized entry with TTL 600. -/
theorem C3_product_refresh_witness :
    storeGet (ProdSvc.mk [⟨1, "w", none, 12, 5, 0, some 3⟩]
        ⟨.up, [(cacheKeyProduct 1,
                .json (serializeProduct ⟨1, "w", none, 12, 5, 0, some 3⟩), 600)]⟩).redis.store
      (cacheKeyProduct 1)
      = some (.json (serializeProduct ⟨1, "w", none, 12, 5, 0, some 3⟩), 600)
    ∧ dbFindProduct (ProdSvc.mk [⟨1, "w", none, 12, 5, 0, some 3⟩]
        ⟨.up, [(cacheKeyProduct 1,
                .json (serializeProduct ⟨1, "w", none, 12, 5, 0, some 3⟩), 600)]⟩).db 1
      = some ⟨1, "w", none, 12, 5, 0, some 3⟩ :=
  C3_product_refresh [⟨1, "w", none, 10, 5, 0, none⟩] [] 1
    ⟨none, none, some (some 12), none⟩ 3
    ⟨[⟨1, "w", none, 12, 5, 0, some 3⟩],
     ⟨.up, [(cacheKeyProduct 1,
             .json (serializeProduct ⟨1, "w", none, 12, 5, 0, some 3⟩), 600)]⟩⟩
    ⟨1, "w", none, 12, 5, 0, some 3⟩ rfl

/-- User row backing the corrupt-cache scenarios. -/
def c4_u0 : UserRec := ⟨1, "carol", "c@x", none, 0, none⟩

/-- Service state whose cache holds, at `user:1`, the bytes `{}` — valid
JSON that cannot be deserialized to a user entity. -/
def c4_state : UserSvc :=
  ⟨[c4_u0], ⟨.up, [(cacheKeyUser 1, .json (.obj []), 3600)]⟩⟩

/-- **C4 counterexample** — the claim fails as stated: the cache entry `{}`
at `user:1` cannot be deserialized to a user entity, yet `get_by_id(1)`
surfaces the corruption to the caller as a `KeyError` and leaves the
offending key in place.  Only bytes that fail `json.loads` itself are
self-healed; JSON-decodable garbage crashes the request in the service's
dict-to-entity code, which no handler protects. -/
theorem C4_counterexample_schema_garbage :
    (userSvc_get_by_id true c4_state 1).2 = .error (.keyErr "created_at")
    ∧ (userSvc_get_by_id true c4_state 1).1.redis.store
        = [(cacheKeyUser 1, .json (.obj []), 3600)] :=
  ⟨rfl, rfl⟩

/-- **C4 (amended)** — corruption self-heal holds for every byte string at
`user:{id}` that fails JSON decoding: `get_by_id(id)` deletes the
offending key, falls through to persistence, returns exactly the
persistence result without surfacing any failure, and leaves the cache
holding either a freshly serialized copy of the found record or no entry
at all.  (The counterexample forces narrowing "cannot be deserialized to
a user entity" to "rejected by `json.loads`".) -/
theorem C4_corruption_selfheal_amended (db : List UserRec)
    (c : List (String × Stored × Nat)) (uid : Int) (t : Nat)
    (h : storeGet c (cacheKeyUser uid) = some (.corrupt, t)) :
    (userSvc_get_by_id true ⟨db, ⟨.up, c⟩⟩ uid).2
      = .ok ((dbFindUser db uid).map UserRec.toObj)
    ∧ storeGet (userSvc_get_by_id true ⟨db, ⟨.up, c⟩⟩ uid).1.redis.store (cacheKeyUser uid)
      = (dbFindUser db uid).map
          (fun u => (Stored.json (serializeUser u), 3600)) := by
  rw [userSvc_get_up_corrupt db h, userSvc_populate_up]
  cases hf : dbFindUser db uid with
  | none =>
    exact ⟨rfl, storeGet_storeDel_self c (cacheKeyUser uid)⟩
  | some u =>
    exact ⟨rfl, storeGet_storeSet_self _ _ _ _⟩

/-- Closed instance of `C4_corruption_selfheal_amended`: a concrete corrupt
entry is healed, the record comes back from persistence, and the key now
holds the freshly serialized record. -/
theorem C4_corruption_selfheal_amended_witness :
    (userSvc_get_by_id true ⟨[c4_u0], ⟨.up, [(cacheKeyUser 1, .corrupt, 50)]⟩⟩ 1).2
      = .ok ((dbFindUser [c4_u0] 1).map UserRec.toObj)
    ∧ storeGet (userSvc_get_by_id true
          ⟨[c4_u0], ⟨.up, [(cacheKeyUser 1, .corrupt, 50)]⟩⟩ 1).1.redis.store
        (cacheKeyUser 1)
      = (dbFindUser [c4_u0] 1).map
          (fun u => (Stored.json (serializeUser u), 3600)) :=
  C4_corruption_selfheal_amended [c4_u0] [(cacheKeyUser 1, .corrupt, 50)] 1 50 rfl

/-! ## Independence of the returned result from the cache step -/

theorem userSvc_update_result_indep (db : List UserRec) (r : RedisState) (uid : Int)
    (p : UserUpdate) (now : DT) :
    (userSvc_update true ⟨db, r⟩ uid p now).2
      = (userSvc_update false ⟨db, r⟩ uid p now).2 := by
  rw [userSvc_update_char, userSvc_update_char]
  cases hp : userUpdatePersist db uid p now with
  | error e => rfl
  | ok q => obtain ⟨db', u'⟩ := q; rfl

theorem userSvc_update_db_indep (db : List UserRec) (r : RedisState) (uid : Int)
    (p : UserUpdate) (now : DT) :
    (userSvc_update true ⟨db, r⟩ uid p now).1.db
      = (userSvc_update false ⟨db, r⟩ uid p now).1.db := by
  rw [userSvc_update_char, userSvc_update_char]
  cases hp : userUpdatePersist db uid p now with
  | error e => rfl
  | ok q => obtain ⟨db', u'⟩ := q; rfl

theorem userSvc_update_err_state (db : List UserRec) (r : RedisState) (uid : Int)
    (p : UserUpdate) (now : DT) (e : PyErr)
    (h : (userSvc_update true ⟨db, r⟩ uid p now).2 = .error e) :
    (userSvc_update true ⟨db, r⟩ uid p now).1 = ⟨db, r⟩ := by
  rw [userSvc_update_char] at h ⊢
  cases hp : userUpdatePersist db uid p now with
  | error e2 => rfl
  | ok q => obtain ⟨db', u'⟩ := q; simp [hp] at h

theorem userSvc_delete_result_indep (db : List UserRec) (r : RedisState) (uid : Int) :
    (userSvc_delete true ⟨db, r⟩ uid).2 = (userSvc_delete false ⟨db, r⟩ uid).2 := by
  rw [userSvc_delete_char, userSvc_delete_char]
  cases hp : UserRepository_delete db uid <;> rfl

theorem userSvc_delete_db_indep (db : List UserRec) (r : RedisState) (uid : Int) :
    (userSvc_delete true ⟨db, r⟩ uid).1.db = (userSvc_delete false ⟨db, r⟩ uid).1.db := by
  rw [userSvc_delete_char, userSvc_delete_char]
  cases hp : UserRepository_delete db uid <;> rfl

theorem userSvc_delete_err_state (db : List UserRec) (r : RedisState) (uid : Int)
    (e : PyErr) (h : (userSvc_delete true ⟨db, r⟩ uid).2 = .error e) :
    (userSvc_delete true ⟨db, r⟩ uid).1 = ⟨db, r⟩ := by
  rw [userSvc_delete_char] at h ⊢
  cases hp : UserRepository_delete db uid with
  | error e2 => rfl
  | ok db' => simp [hp] at h

theorem prodSvc_update_result_indep (db : List ProductRec) (r : RedisState) (pid : Int)
    (p : ProductUpdate) (now : DT) :
    (prodSvc_update true ⟨db, r⟩ pid p now).2
      = (prodSvc_update false ⟨db, r⟩ pid p now).2 := by
  rw [prodSvc_update_char, prodSvc_update_char]
  cases hp : prodUpdatePersist db pid p now with
  | error e => rfl
  | ok q => obtain ⟨db', pr'⟩ := q; rfl

theorem prodSvc_update_db_indep (db : List ProductRec) (r : RedisState) (pid : Int)
    (p : ProductUpdate) (now : DT) :
    (prodSvc_update true ⟨db, r⟩ pid p now).1.db
      = (prodSvc_update false ⟨db, r⟩ pid p now).1.db := by
  rw [prodSvc_update_char, prodSvc_update_char]
  cases hp : prodUpdatePersist db pid p now with
  | error e => rfl
  | ok q => obtain ⟨db', pr'⟩ := q; rfl

theorem prodSvc_update_err_state (db : List ProductRec) (r : RedisState) (pid : Int)
    (p : ProductUpdate) (now : DT) (e : PyErr)
    (h : (prodSvc_update true ⟨db, r⟩ pid p now).2 = .error e) :
    (prodSvc_update true ⟨db, r⟩ pid p now).1 = ⟨db, r⟩ := by
  rw [prodSvc_update_char] at h ⊢
  cases hp : prodUpdatePersist db pid p now with
  | error e2 => rfl
  | ok q => obtain ⟨db', pr'⟩ := q; simp [hp] at h

theorem prodSvc_delete_result_indep (db : List ProductRec) (r : RedisState) (pid : Int) :
    (prodSvc_delete true ⟨db, r⟩ pid).2 = (prodSvc_delete false ⟨db, r⟩ pid).2 := by
  rw [prodSvc_delete_char, prodSvc_delete_char]
  cases hp : ProductRepository_delete db pid <;> rfl

theorem prodSvc_delete_db_indep (db : List ProductRec) (r : RedisState) (pid : Int) :
    (prodSvc_delete true ⟨db, r⟩ pid).1.db = (prodSvc_delete false ⟨db, r⟩ pid).1.db := by
  rw [prodSvc_delete_char, prodSvc_delete_char]
  cases hp : ProductRepository_delete db pid <;> rfl

theorem prodSvc_delete_err_state (db : List ProductRec) (r : RedisState) (pid : Int)
    (e : PyErr) (h : (prodSvc_delete true ⟨db, r⟩ pid).2 = .error e) :
    (prodSvc_delete true ⟨db, r⟩ pid).1 = ⟨db, r⟩ := by
  rw [prodSvc_delete_char] at h ⊢
  cases hp : ProductRepository_delete db pid with
  | error e2 => rfl
  | ok db' => simp [hp] at h

/-- Service state whose cache client times out on every command while a
valid record sits in persistence. -/
def c5_state : UserSvc := ⟨[⟨1, "dan", "d@x", none, 0, none⟩], ⟨.timeouts, []⟩⟩

/-- **C5 counterexample** — the claim fails as stated: when the cache `GET`
inside `get_by_id(1)` times out (`redis.TimeoutError`), the error
propagates out of the service and fails the overall request, instead of
falling through to persistence the way a `redis.ConnectionError` does.
The cache helpers catch only `redis.ConnectionError`, and the service
wraps no handler around the read path. -/
theorem C5_counterexample_get_timeout :
    (userSvc_get_by_id true c5_state 1).2 = .error .timeoutErr
    ∧ (userSvc_get_by_id false c5_state 1).2
        = .ok (some (⟨1, "dan", "d@x", none, 0, none⟩ : UserRec).toObj) :=
  ⟨rfl, rfl⟩

theorem userSvc_populate_timeouts (db : List UserRec)
    (c : List (String × Stored × Nat)) (uid : Int) :
    userSvc_populate true db ⟨.timeouts, c⟩ uid
      = (⟨db, ⟨.timeouts, c⟩⟩, .ok ((dbFindUser db uid).map UserRec.toObj)) := by
  unfold userSvc_populate
  cases h : dbFindUser db uid <;>
    simp [h, set_user_to_cache, cacheSetRaw_timeouts, serializeUser_encodable,
      PyErr.caughtByVTR, PyErr.isRedisError, PyErr.isValueError, PyErr.isTypeError]

theorem prodSvc_populate_timeouts (db : List ProductRec)
    (c : List (String × Stored × Nat)) (pid : Int) :
    prodSvc_populate true db ⟨.timeouts, c⟩ pid
      = (⟨db, ⟨.timeouts, c⟩⟩, .ok ((dbFindProduct db pid).map ProductRec.toObj)) := by
  unfold prodSvc_populate
  cases h : dbFindProduct db pid <;>
    simp [h, set_product_to_cache, cacheSetRaw_timeouts, serializeProduct_encodable,
      PyErr.caughtByVTR, PyErr.isRedisError, PyErr.isValueError, PyErr.isTypeError]

/-- **C5 (amended)** — timeout handling is split by path: a cache-store
timeout during the write-side cache steps of `update`/`delete` (for both
entities) is swallowed exactly like a connectivity failure and the request
returns the persistence outcome; a timeout of the best-effort `SETEX` in
the populate step of a read-miss is likewise swallowed, the read returning
the persistence result; but a timeout of the cache `GET` inside
`get_by_id` propagates as `redis.TimeoutError` and fails the read for both
entities.  (The counterexample forces carving the `GET` of the read path
out of the claim.) -/
theorem C5_timeout_handling_amended :
    (∀ (db : List UserRec) (c : List (String × Stored × Nat)) (uid : Int)
        (p : UserUpdate) (now : DT),
      (userSvc_update true ⟨db, ⟨.timeouts, c⟩⟩ uid p now).2
        = (userSvc_update false ⟨db, ⟨.timeouts, c⟩⟩ uid p now).2)
    ∧ (∀ (db : List UserRec) (c : List (String × Stored × Nat)) (uid : Int),
      (userSvc_delete true ⟨db, ⟨.timeouts, c⟩⟩ uid).2
        = (userSvc_delete false ⟨db, ⟨.timeouts, c⟩⟩ uid).2)
    ∧ (∀ (db : List ProductRec) (c : List (String × Stored × Nat)) (pid : Int)
        (p : ProductUpdate) (now : DT),
      (prodSvc_update true ⟨db, ⟨.timeouts, c⟩⟩ pid p now).2
        = (prodSvc_update false ⟨db, ⟨.timeouts, c⟩⟩ pid p now).2)
    ∧ (∀ (db : List ProductRec) (c : List (String × Stored × Nat)) (pid : Int),
      (prodSvc_delete true ⟨db, ⟨.timeouts, c⟩⟩ pid).2
        = (prodSvc_delete false ⟨db, ⟨.timeouts, c⟩⟩ pid).2)
    ∧ (∀ (db : List UserRec) (c : List (String × Stored × Nat)) (uid : Int),
      (userSvc_populate true db ⟨.timeouts, c⟩ uid).2
        = .ok ((dbFindUser db uid).map UserRec.toObj))
    ∧ (∀ (db : List ProductRec) (c : List (String × Stored × Nat)) (pid : Int),
      (prodSvc_populate true db ⟨.timeouts, c⟩ pid).2
        = .ok ((dbFindProduct db pid).map ProductRec.toObj))
    ∧ (∀ (db : List UserRec) (c : List (String × Stored × Nat)) (uid : Int),
      (userSvc_get_by_id true ⟨db, ⟨.timeouts, c⟩⟩ uid).2 = .error .timeoutErr)
    ∧ (∀ (db : List ProductRec) (c : List (String × Stored × Nat)) (pid : Int),
      (prodSvc_get_by_id true ⟨db, ⟨.timeouts, c⟩⟩ pid).2 = .error .timeoutErr) := by
  refine ⟨?_, ?_, ?_, ?_, ?_, ?_, ?_, ?_⟩
  · intro db c uid p now
    exact userSvc_update_result_indep db ⟨.timeouts, c⟩ uid p now
  · intro db c uid
    exact userSvc_delete_result_indep db ⟨.timeouts, c⟩ uid
  · intro db c pid p now
    exact prodSvc_update_result_indep db ⟨.timeouts, c⟩ pid p now
  · intro db c pid
    exact prodSvc_delete_result_indep db ⟨.timeouts, c⟩ pid
  · intro db c uid
    rw [userSvc_populate_timeouts]
  · intro db c pid
    rw [prodSvc_populate_timeouts]
  · intro db c uid
    rw [userSvc_get_timeouts]
  · intro db c pid
    rw [prodSvc_get_timeouts]

/-- **C6** — Write ordering and atomicity on error: for update and delete
of either entity, the returned outcome and the resulting database are
exactly those of the persistence mutation alone (the cache step never
affects them), and whenever the persistence step fails the whole state —
cache included — is left unchanged, the cache mutation never having run. -/
theorem C6_write_ordering_atomicity :
    (∀ (db : List UserRec) (r : RedisState) (uid : Int) (p : UserUpdate) (now : DT),
      (userSvc_update true ⟨db, r⟩ uid p now).2
          = (userSvc_update false ⟨db, r⟩ uid p now).2
      ∧ (userSvc_update true ⟨db, r⟩ uid p now).1.db
          = (userSvc_update false ⟨db, r⟩ uid p now).1.db
      ∧ ∀ e, (userSvc_update true ⟨db, r⟩ uid p now).2 = .error e →
          (userSvc_update true ⟨db, r⟩ uid p now).1 = ⟨db, r⟩)
    ∧ (∀ (db : List UserRec) (r : RedisState) (uid : Int),
      (userSvc_delete true ⟨db, r⟩ uid).2 = (userSvc_delete false ⟨db, r⟩ uid).2
      ∧ (userSvc_delete true ⟨db, r⟩ uid).1.db = (userSvc_delete false ⟨db, r⟩ uid).1.db
      ∧ ∀ e, (userSvc_delete true ⟨db, r⟩ uid).2 = .error e →
          (userSvc_delete true ⟨db, r⟩ uid).1 = ⟨db, r⟩)
    ∧ (∀ (db : List ProductRec) (r : RedisState) (pid : Int) (p : ProductUpdate)
        (now : DT),
      (prodSvc_update true ⟨db, r⟩ pid p now).2
          = (prodSvc_update false ⟨db, r⟩ pid p now).2
      ∧ (prodSvc_update true ⟨db, r⟩ pid p now).1.db
          = (prodSvc_update false ⟨db, r⟩ pid p now).1.db
      ∧ ∀ e, (prodSvc_update true ⟨db, r⟩ pid p now).2 = .error e →
          (prodSvc_update true ⟨db, r⟩ pid p now).1 = ⟨db, r⟩)
    ∧ (∀ (db : List ProductRec) (r : RedisState) (pid : Int),
      (prodSvc_delete true ⟨db, r⟩ pid).2 = (prodSvc_delete false ⟨db, r⟩ pid).2
      ∧ (prodSvc_delete true ⟨db, r⟩ pid).1.db = (prodSvc_delete false ⟨db, r⟩ pid).1.db
      ∧ ∀ e, (prodSvc_delete true ⟨db, r⟩ pid).2 = .error e →
          (prodSvc_delete true ⟨db, r⟩ pid).1 = ⟨db, r⟩) := by
  refine ⟨?_, ?_, ?_, ?_⟩
  · intro db r uid p now
    exact ⟨userSvc_update_result_indep db r uid p now,
      userSvc_update_db_indep db r uid p now,
      fun e => userSvc_update_err_state db r uid p now e⟩
  · intro db r uid
    exact ⟨userSvc_delete_result_indep db r uid,
      userSvc_delete_db_indep db r uid,
      fun e => userSvc_delete_err_state db r uid e⟩
  · intro db r pid p now
    exact ⟨prodSvc_update_result_indep db r pid p now,
      prodSvc_update_db_indep db r pid p now,
      fun e => prodSvc_update_err_state db r pid p now e⟩
  · intro db r pid
    exact ⟨prodSvc_delete_result_indep db r pid,
      prodSvc_delete_db_indep db r pid,
      fun e => prodSvc_delete_err_state db r pid e⟩

/-- Closed instance of `C6_write_ordering_atomicity`: updating an absent
user id fails with NotFound and leaves database and cache untouched. -/
theorem C6_write_ordering_atomicity_witness :
    (userSvc_update true ⟨[], ⟨.up, [(cacheKeyUser 1, .corrupt, 9)]⟩⟩ 1
        ⟨none, none, none⟩ 0).1
      = ⟨[], ⟨.up, [(cacheKeyUser 1, .corrupt, 9)]⟩⟩ :=
  (C6_write_ordering_atomicity.1 [] ⟨.up, [(cacheKeyUser 1, .corrupt, 9)]⟩ 1
    ⟨none, none, none⟩ 0).2.2 (.notFound "User" 1) rfl

theorem UserRepository_delete_notFound_iff (db : List UserRec) (uid : Int) :
    UserRepository_delete db uid = .error (.notFound "User" uid)
      ↔ dbFindUser db uid = none := by
  unfold UserRepository_delete
  cases hf : dbFindUser db uid <;> simp

theorem ProductRepository_delete_notFound_iff (db : List ProductRec) (pid : Int) :
    ProductRepository_delete db pid = .error (.notFound "Product" pid)
      ↔ dbFindProduct db pid = none := by
  unfold ProductRepository_delete
  cases hf : dbFindProduct db pid <;> simp

theorem userUpdatePersist_notFound_iff (db : List UserRec) (uid : Int) (p : UserUpdate)
    (now : DT) :
    userUpdatePersist db uid p now = .error (.notFound "User" uid)
      ↔ dbFindUser db uid = none := by
  unfold userUpdatePersist
  cases hf : dbFindUser db uid with
  | none => simp
  | some u =>
    dsimp only
    constructor
    · intro h
      exfalso
      split_ifs at h
      · simp at h
      · simp at h
      · unfold UserRepository_update at h
        rw [hf] at h
        simp at h
    · intro h
      exact Option.noConfusion h

theorem prodUpdatePersist_notFound_iff (db : List ProductRec) (pid : Int)
    (p : ProductUpdate) (now : DT) :
    prodUpdatePersist db pid p now = .error (.notFound "Product" pid)
      ↔ dbFindProduct db pid = none := by
  unfold prodUpdatePersist
  cases hf : dbFindProduct db pid with
  | none => simp
  | some pr =>
    dsimp only
    constructor
    · intro h
      exfalso
      split_ifs at h
      · simp at h
      · simp at h
      · unfold ProductRepository_update at h
        rw [hf] at h
        simp at h
    · intro h
      exact Option.noConfusion h

theorem userSvc_update_result_persist (db : List UserRec) (r : RedisState) (uid : Int)
    (p : UserUpdate) (now : DT) :
    (userSvc_update true ⟨db, r⟩ uid p now).2
      = match userUpdatePersist db uid p now with
        | .error e => .error e
        | .ok q => .ok q.2 := by
  rw [userSvc_update_char]
  cases hp : userUpdatePersist db uid p now with
  | error e => rfl
  | ok q => obtain ⟨db', u'⟩ := q; rfl

theorem userSvc_delete_result_persist (db : List UserRec) (r : RedisState) (uid : Int) :
    (userSvc_delete true ⟨db, r⟩ uid).2
      = match UserRepository_delete db uid with
        | .error e => .error e
        | .ok _ => .ok () := by
  rw [userSvc_delete_char]
  cases hp : UserRepository_delete db uid <;> rfl

theorem prodSvc_update_result_persist (db : List ProductRec) (r : RedisState) (pid : Int)
    (p : ProductUpdate) (now : DT) :
    (prodSvc_update true ⟨db, r⟩ pid p now).2
      = match prodUpdatePersist db pid p now with
        | .error e => .error e
        | .ok q => .ok q.2 := by
  rw [prodSvc_update_char]
  cases hp : prodUpdatePersist db pid p now with
  | error e => rfl
  | ok q => obtain ⟨db', pr'⟩ := q; rfl

theorem prodSvc_delete_result_persist (db : List ProductRec) (r : RedisState) (pid : Int) :
    (prodSvc_delete true ⟨db, r⟩ pid).2
      = match ProductRepository_delete db pid with
        | .error e => .error e
        | .ok _ => .ok () := by
  rw [prodSvc_delete_char]
  cases hp : ProductRepository_delete db pid <;> rfl

/-- **C7** — NotFound raises-iff and untouched propagation: for either
entity and any cache state, `update(id, patch)` and `delete(id)` return
the persistence layer's NotFound `ValueError` — exactly that error,
unmasked and unaltered by the cache layer — if and only if no record with
that id exists in persistence. -/
theorem C7_notFound_iff :
    (∀ (db : List UserRec) (r : RedisState) (uid : Int) (p : UserUpdate) (now : DT),
      (userSvc_update true ⟨db, r⟩ uid p now).2 = .error (.notFound "User" uid)
        ↔ dbFindUser db uid = none)
    ∧ (∀ (db : List UserRec) (r : RedisState) (uid : Int),
      (userSvc_delete true ⟨db, r⟩ uid).2 = .error (.notFound "User" uid)
        ↔ dbFindUser db uid = none)
    ∧ (∀ (db : List ProductRec) (r : RedisState) (pid : Int) (p : ProductUpdate)
        (now : DT),
      (prodSvc_update true ⟨db, r⟩ pid p now).2 = .error (.notFound "Product" pid)
        ↔ dbFindProduct db pid = none)
    ∧ (∀ (db : List ProductRec) (r : RedisState) (pid : Int),
      (prodSvc_delete true ⟨db, r⟩ pid).2 = .error (.notFound "Product" pid)
        ↔ dbFindProduct db pid = none) := by
  refine ⟨?_, ?_, ?_, ?_⟩
  · intro db r uid p now
    rw [userSvc_update_result_persist, ← userUpdatePersist_notFound_iff db uid p now]
    cases hp : userUpdatePersist db uid p now with
    | error e => simp
    | ok q => obtain ⟨db', u'⟩ := q; simp
  · intro db r uid
    rw [userSvc_delete_result_persist, ← UserRepository_delete_notFound_iff db uid]
    cases hp : UserRepository_delete db uid with
    | error e => simp
    | ok db' => simp
  · intro db r pid p now
    rw [prodSvc_update_result_persist, ← prodUpdatePersist_notFound_iff db pid p now]
    cases hp : prodUpdatePersist db pid p now with
    | error e => simp
    | ok q => obtain ⟨db', pr'⟩ := q; simp
  · intro db r pid
    rw [prodSvc_delete_result_persist, ← ProductRepository_delete_notFound_iff db pid]
    cases hp : ProductRepository_delete db pid with
    | error e => simp
    | ok db' => simp

/-- Closed instance of `C7_notFound_iff`: updating an id absent from an
empty database yields exactly the NotFound error. -/
theorem C7_notFound_iff_witness :
    (userSvc_update true ⟨[], ⟨.up, []⟩⟩ 5 ⟨none, none, none⟩ 0).2
      = .error (.notFound "User" 5) :=
  (C7_notFound_iff.1 [] ⟨.up, []⟩ 5 ⟨none, none, none⟩ 0).mpr rfl

/-- **C8** — TTL bounds: every population the cache layer performs stores a
user entry with a TTL of exactly 3600 seconds and a product entry —
miss-population and update-refresh alike — with a TTL of exactly 600
seconds, written atomically with the value in the single `SETEX` step;
when the store is unreachable or the value unencodable nothing is
written at all. -/
theorem C8_ttl_bounds :
    (∀ (r : RedisState) (uid : Int) (d : JVal),
      (set_user_to_cache r uid d).1.store
        = if r.mode = .up ∧ d.encodable = true
          then storeSet r.store (cacheKeyUser uid) (.json d) 3600
          else r.store)
    ∧ (∀ (r : RedisState) (pid : Int) (d : JVal),
      (set_product_to_cache r pid d).1.store
        = if r.mode = .up ∧ d.encodable = true
          then storeSet r.store (cacheKeyProduct pid) (.json d) 600
          else r.store)
    ∧ (∀ (r : RedisState) (pid : Int) (d : JVal),
      (update_product_in_cache r pid d).1.store
        = if r.mode = .up ∧ d.encodable = true
          then storeSet r.store (cacheKeyProduct pid) (.json d) 600
          else r.store) := by
  refine ⟨?_, ?_, ?_⟩
  · intro r uid d
    obtain ⟨m, c⟩ := r
    cases m <;> by_cases hd : d.encodable <;>
      simp [set_user_to_cache, cacheSetRaw_up, cacheSetRaw_down, cacheSetRaw_timeouts,
        cacheSetRaw_up_unencodable, hd]
  · intro r pid d
    obtain ⟨m, c⟩ := r
    cases m <;> by_cases hd : d.encodable <;>
      simp [set_product_to_cache, cacheSetRaw_up, cacheSetRaw_down, cacheSetRaw_timeouts,
        cacheSetRaw_up_unencodable, hd]
  · intro r pid d
    obtain ⟨m, c⟩ := r
    cases m <;> by_cases hd : d.encodable <;>
      simp [update_product_in_cache, cacheSetRaw_up, cacheSetRaw_down,
        cacheSetRaw_timeouts, cacheSetRaw_up_unencodable, hd]

/-- A cached user dict whose timestamps are already-structured datetime
values rather than ISO-8601 strings — the other form §4.2's defensive
deserialization must accept. -/
def userDictStructuredTimes (u : UserRec) : JVal :=
  .obj [("id", .int u.id),
        ("username", .str u.username),
        ("email", .str u.email),
        ("description", u.description.elim .null .str),
        ("created_at", .dt u.created_at),
        ("updated_at", u.updated_at.elim .null .dt)]

/-- A cached product dict whose timestamps are already-structured datetime
values rather than ISO-8601 strings. -/
def productDictStructuredTimes (p : ProductRec) : JVal :=
  .obj [("id", .int p.id),
        ("name", .str p.name),
        ("description", p.description.elim .null .str),
        ("price", .num p.price),
        ("stock_quantity", .int p.stock_quantity),
        ("created_at", .dt p.created_at),
        ("updated_at", p.updated_at.elim .null .dt)]

theorem decodeUserHit_structured (u : UserRec) :
    decodeUserHit (userDictStructuredTimes u) = .ok u.toObj := by
  rcases u with ⟨i, un, em, d, ca, ua⟩
  cases d <;> cases ua <;>
    simp [decodeUserHit, userDictStructuredTimes, pyIndex, pyGetMethod, lookupField,
      parseTimeField, parseOptTimeField, JVal.truthy, UserRec.toObj, Option.elim]

theorem decodeProductHit_structured (p : ProductRec) :
    decodeProductHit (productDictStructuredTimes p) = .ok p.toObj := by
  rcases p with ⟨i, nm, d, pr, sq, ca, ua⟩
  cases d <;> cases ua <;>
    simp [decodeProductHit, productDictStructuredTimes, pyIndex, pyGetMethod, lookupField,
      parseTimeField, parseOptTimeField, JVal.truthy, ProductRec.toObj, Option.elim]

/-- **C9** — Serialization round-trip: encoding any entity record for the
cache (timestamps rendered as ISO-8601 strings) and decoding it through
the cache-hit path yields an object with exactly the original attribute
values; and the same decoding path equally accepts dicts whose timestamps
are already-structured datetime values instead of strings. -/
theorem C9_serialization_roundtrip :
    (∀ u : UserRec, decodeUserHit (serializeUser u) = .ok u.toObj)
    ∧ (∀ p : ProductRec, decodeProductHit (serializeProduct p) = .ok p.toObj)
    ∧ (∀ u : UserRec, decodeUserHit (userDictStructuredTimes u) = .ok u.toObj)
    ∧ (∀ p : ProductRec, decodeProductHit (productDictStructuredTimes p) = .ok p.toObj) :=
  ⟨decodeUserHit_serialize, decodeProductHit_serialize,
   decodeUserHit_structured, decodeProductHit_structured⟩

/-- User row backing the C10 scenarios: note the already-set `updated_at`. -/
def c10_u0 : UserRec := ⟨1, "ann", "a@y", none, 0, some 0⟩

/-- **C10 counterexample** — the claim fails as stated: a patch writing
only `username` (to a genuinely different value, so the flush emits an
UPDATE) also rewrites `updated_at` through the ORM's
`onupdate=datetime.now` column default, so not every non-patch field
keeps its prior value. -/
theorem C10_counterexample_onupdate :
    UserRepository_update [c10_u0] 1 ⟨some (some "bea"), none, none⟩ 7
      = .ok ([⟨1, "bea", "a@y", none, 0, some 7⟩], ⟨1, "bea", "a@y", none, 0, some 7⟩)
    ∧ (⟨1, "bea", "a@y", none, 0, some 7⟩ : UserRec).updated_at ≠ c10_u0.updated_at :=
  ⟨rfl, by decide⟩

/-- The post-update user row the amended claim predicts: each explicitly
set, non-null patch field overwrites; every other payload field keeps its
prior value; an optional field is never cleared to null; `updated_at` is
refreshed to the update instant exactly when the patch produces a net
change — some effective field differing from the stored value — since
only then does the flush emit an UPDATE and fire `onupdate`. -/
def userPatchTarget (u : UserRec) (p : UserUpdate) (now : DT) : UserRec where
  id := u.id
  username := match p.username with | some (some v) => v | _ => u.username
  email := match p.email with | some (some v) => v | _ => u.email
  description := match p.description with | some (some v) => some v | _ => u.description
  created_at := u.created_at
  updated_at := if userPatchChanges u p then some now else u.updated_at

/-- The post-update product row the amended claim predicts. -/
def productPatchTarget (pr : ProductRec) (p : ProductUpdate) (now : DT) : ProductRec where
  id := pr.id
  name := match p.name with | some (some v) => v | _ => pr.name
  description := match p.description with | some (some v) => some v | _ => pr.description
  price := match p.price with | some (some v) => v | _ => pr.price
  stock_quantity := match p.stock_quantity with | some (some v) => v | _ => pr.stock_quantity
  created_at := pr.created_at
  updated_at := if productPatchChanges pr p then some now else pr.updated_at

theorem userPatchTarget_eq (u : UserRec) (p : UserUpdate) (now : DT) :
    (if userPatchChanges u p then { applyUserFields u p with updated_at := some now }
     else applyUserFields u p) = userPatchTarget u p now := by
  by_cases hc : userPatchChanges u p <;>
    · rcases p with ⟨pu, pe, pd⟩
      rcases pu with _ | (_ | pu) <;> rcases pe with _ | (_ | pe) <;>
        rcases pd with _ | (_ | pd) <;>
        simp_all [applyUserFields, userPatchTarget, effField]

theorem productPatchTarget_eq (pr : ProductRec) (p : ProductUpdate) (now : DT) :
    (if productPatchChanges pr p then { applyProductFields pr p with updated_at := some now }
     else applyProductFields pr p) = productPatchTarget pr p now := by
  by_cases hc : productPatchChanges pr p <;>
    · rcases p with ⟨pn, pd, pp, ps⟩
      rcases pn with _ | (_ | pn) <;> rcases pd with _ | (_ | pd) <;>
        rcases pp with _ | (_ | pp) <;> rcases ps with _ | (_ | ps) <;>
        simp_all [applyProductFields, productPatchTarget, effField]

/-- **C10 (amended)** — implicit patch semantics with the ORM timestamp
carve-out: an update writes exactly the patch fields that are explicitly
set and non-null, every other payload field keeps its prior value, an
optional field can never be cleared to null, `updated_at` is refreshed
exactly when some effective field differs from its stored value (a flush
with only net-zero assignments emits no UPDATE, so re-setting a field to
its current value keeps the prior `updated_at`), and a patch with no
effective fields succeeds returning the record completely unchanged. -/
theorem C10_patch_semantics_amended :
    (∀ (db : List UserRec) (uid : Int) (p : UserUpdate) (now : DT) (u : UserRec),
      dbFindUser db uid = some u →
      UserRepository_update db uid p now
        = .ok (dbReplaceUser db uid (userPatchTarget u p now), userPatchTarget u p now))
    ∧ (∀ (db : List ProductRec) (pid : Int) (p : ProductUpdate) (now : DT)
        (pr : ProductRec),
      dbFindProduct db pid = some pr →
      ProductRepository_update db pid p now
        = .ok (dbReplaceProduct db pid (productPatchTarget pr p now),
               productPatchTarget pr p now))
    ∧ (∀ (u : UserRec) (now : DT), userPatchTarget u ⟨none, none, none⟩ now = u)
    ∧ (∀ (pr : ProductRec) (now : DT),
        productPatchTarget pr ⟨none, none, none, none⟩ now = pr)
    ∧ (∀ (u : UserRec) (now : DT),
        userPatchTarget u ⟨some (some u.username), none, none⟩ now = u) := by
  refine ⟨?_, ?_, ?_, ?_, ?_⟩
  · intro db uid p now u h
    unfold UserRepository_update
    rw [h]
    dsimp only
    rw [userPatchTarget_eq]
  · intro db pid p now pr h
    unfold ProductRepository_update
    rw [h]
    dsimp only
    rw [productPatchTarget_eq]
  · intro u now
    rfl
  · intro pr now
    rfl
  · intro u now
    rcases u with ⟨i, un, em, d, ca, ua⟩
    simp [userPatchTarget, userPatchChanges, effField]

/-- Closed instance of `C10_patch_semantics_amended`: a concrete
email-only patch produces exactly the predicted row. -/
theorem C10_patch_semantics_amended_witness :
    UserRepository_update [c10_u0] 1 ⟨none, some (some "z@z"), none⟩ 4
      = .ok (dbReplaceUser [c10_u0] 1
               (userPatchTarget c10_u0 ⟨none, some (some "z@z"), none⟩ 4),
             userPatchTarget c10_u0 ⟨none, some (some "z@z"), none⟩ 4) :=
  C10_patch_semantics_amended.1 [c10_u0] 1 ⟨none, some (some "z@z"), none⟩ 4 c10_u0 rfl

end CacheLayer
